import Mathlib

/-!
Verification development for the distant-sky generation core of OpenTESArena
(`src/OpenTESArena/src/World/DistantSky.cpp`).

The C++ code is shallowly embedded: machine integers become `Nat`/`Int` with
explicit wrap-around where relevant, `double` values that only feed exact
field arithmetic become `ℚ`, and `double` values built from `π`, `sqrt`,
`atan2`, `sin`/`cos` become `ℝ`.  Fallible steps (debug assertions, bounds
checks and the unbounded retry loop in star generation) are modelled in
`Option`.  The legacy pseudo-random generator (`ArenaRandom`) and the other
collaborators (texture manager, palette, map utilities) are external to the
shown code and are passed in as explicit parameters.
-/

set_option maxRecDepth 8000

namespace DistantSkyModel

/-- Wrap-around modulus of `uint32_t` arithmetic. -/
def U32 : Nat := 4294967296

/-- Modelled from the spec: the deterministic sequence source (`ArenaRandom`,
whose internal bit algorithm is not part of the shown code).  Its external
contract is `seed(u32)`, `next() -> u16`, `currentSeed() -> u32`; we model an
implementation as a step function from the current 32-bit seed to a drawn
value and the next seed.  `rnext` below normalizes the draw to 16 bits and
the state to 32 bits, so every implementation satisfies the contract. -/
structure SeqSourceImpl where
  step : Nat → Nat × Nat

/-- Draw one value: returns the 16-bit draw and the new 32-bit seed. -/
def rnext (impl : SeqSourceImpl) (s : Nat) : Nat × Nat :=
  ((impl.step s).1 % 65536, (impl.step s).2 % U32)

/-- A two-dimensional buffer of 8-bit palette indices (`Buffer2D<uint8_t>`). -/
def Buffer2D : Type := List (List Nat)

/-- Upper-case a filename, as `String::toUppercase` does before store lookups. -/
def toUppercase (s : String) : String := String.mk (s.data.map Char.toUpper)

/-- Write the characters `digits` into `name` starting at position `start`,
one position per character; fails (like `std::string::at`) when a position is
out of range. -/
def setChars : List Char → Nat → List Char → Option (List Char)
  | name, _, [] => some name
  | name, start, c :: rest =>
    if start < name.length then setChars (name.set start c) (start + 1) rest
    else none

/-- Index of the first element satisfying `p`, if any: the
`std::find_if` / `std::distance` linear-scan pattern used by the texture
stores. -/
def findIndex {α : Type} (p : α → Bool) : List α → Option Nat
  | [] => none
  | a :: rest => if p a then some 0 else (findIndex p rest).map (· + 1)

/-- Check whether `pat` occurs as a contiguous subsequence (the
`std::string::find(...) != npos` test used for the `.DFA` marker). -/
def containsSeq (pat : List Char) : List Char → Bool
  | [] => pat.isEmpty
  | c :: rest => pat.isPrefixOf (c :: rest) || containsSeq pat rest

/-- Interpretation of a 16-bit draw as `int16_t` (the cast used for
constellation sub-star deltas). -/
def toInt16 (v : Nat) : Int :=
  if v % 65536 < 32768 then (v % 65536 : Int) else (v % 65536 : Int) - 65536

/-- Arithmetic right shift by 9 of an `int16_t` value, i.e. flooring division
by 2^9 = 512. -/
def asr9 (v : Nat) : Int := Int.fdiv (toInt16 v) 512

/-- Constant `DistantSky::UNIQUE_ANGLES`. -/
def UNIQUE_ANGLES : Nat := 512

/-- Constant `DistantSky::IDENTITY_DIM`. -/
def IDENTITY_DIM : ℝ := 320

/-- Constant `DistantSky::IDENTITY_ANGLE_RADIANS` (90 degrees in radians). -/
noncomputable def IDENTITY_ANGLE_RADIANS : ℝ := 90 * (Real.pi / 180)

/-- The lambda `arenaAngleToRadians` of `DistantSky::init`: converts an Arena
angle unit (0 = south, 128 = west, 256 = north, 384 = east, clockwise) to
counter-clockwise radians with 0 = east.  The source applies no further
normalization. -/
noncomputable def arenaAngleToRadians (angle : Nat) : ℝ :=
  let arenaRadians := (2 * Real.pi) * ((angle : ℝ) / (UNIQUE_ANGLES : ℝ))
  let flippedArenaRadians := 2 * Real.pi - arenaRadians
  flippedArenaRadians - Real.pi / 2

/-- Modelled from the spec: `std::atan2`, expressed via the complex argument
(`atan2 y x = arg (x + y i)`). -/
noncomputable def atan2 (y x : ℝ) : ℝ := Complex.arg ⟨x, y⟩

/-- Modelled from the spec: `Double3::normalized` (the math library is not
part of the shown code); produces the unit vector in the same direction. -/
noncomputable def normalize3 (v : ℝ × ℝ × ℝ) : ℝ × ℝ × ℝ :=
  let n := Real.sqrt (v.1 * v.1 + v.2.1 * v.2.1 + v.2.2 * v.2.2)
  (v.1 / n, v.2.1 / n, v.2.2 / n)

/-- Modelled from the spec: `Matrix4d::xRotation` applied to a vector — the
rotation about the horizontal axis used for constellation sub-stars. -/
noncomputable def rotateX (a : ℝ) (v : ℝ × ℝ × ℝ) : ℝ × ℝ × ℝ :=
  (v.1, Real.cos a * v.2.1 - Real.sin a * v.2.2,
   Real.sin a * v.2.1 + Real.cos a * v.2.2)

/-- Modelled from the spec: `Matrix4d::yRotation` applied to a vector — the
rotation about the vertical axis used for constellation sub-stars. -/
noncomputable def rotateY (a : ℝ) (v : ℝ × ℝ × ℝ) : ℝ × ℝ × ℝ :=
  (Real.cos a * v.1 + Real.sin a * v.2.2, v.2.1,
   -(Real.sin a) * v.1 + Real.cos a * v.2.2)

/-! ### Data model of the `DistantSky` aggregate -/

/-- A deduplicated single texture (`DistantSky::TextureEntry`). -/
structure TextureEntry where
  filename : String
  texture : Buffer2D

/-- A deduplicated multi-frame texture set (`DistantSky::TextureSetEntry`). -/
structure TextureSetEntry where
  filename : String
  textures : List Buffer2D

/-- A static land object (`DistantSky::LandObject`). -/
structure LandObject where
  entryIndex : Nat
  angleRadians : ℝ

/-- An animated land object (`DistantSky::AnimatedLandObject`).  The frame
timer fields are exact rationals standing for the `double` fields. -/
structure AnimatedLandObject where
  setEntryIndex : Nat
  angleRadians : ℝ
  targetFrameTime : ℚ
  currentFrameTime : ℚ
  index : Nat

/-- An air object (`DistantSky::AirObject`). -/
structure AirObject where
  entryIndex : Nat
  angleRadians : ℝ
  height : ℚ

/-- Moon kinds (`DistantSky::MoonObject::Type`). -/
inductive MoonType where
  | First
  | Second
deriving DecidableEq

/-- A moon object (`DistantSky::MoonObject`). -/
structure MoonObject where
  entryIndex : Nat
  phasePercent : ℚ
  type : MoonType

/-- A star object (`DistantSky::StarObject`), the tagged union of small
(constellation) and large stars. -/
inductive StarObject where
  | small (color : Nat) (direction : ℝ × ℝ × ℝ)
  | large (entryIndex : Nat) (direction : ℝ × ℝ × ℝ)

/-- The `DistantSky` aggregate's owned collections. -/
structure DistantSky where
  textures : List TextureEntry
  textureSets : List TextureSetEntry
  landObjects : List LandObject
  animLandObjects : List AnimatedLandObject
  airObjects : List AirObject
  moonObjects : List MoonObject
  starObjects : List StarObject
  sunEntryIndex : Option Nat

/-- The default-constructed, empty aggregate that `init` fills. -/
def emptySky : DistantSky := ⟨[], [], [], [], [], [], [], none⟩

/-- Lookup `DistantSky::getTextureEntryIndex(filename)`: index of the first
texture entry with the given filename, if any (linear scan). -/
def getTextureEntryIndex (sky : DistantSky) (filename : String) : Option Nat :=
  findIndex (fun e => e.filename == filename) sky.textures

/-- Lookup `DistantSky::getTextureSetEntryIndex(filename)`. -/
def getTextureSetEntryIndex (sky : DistantSky) (filename : String) : Option Nat :=
  findIndex (fun e => e.filename == filename) sky.textureSets

/-- Accessor `DistantSky::getTextureSetCount(index)`; the out-of-range case is
a contract violation, modelled as `none`. -/
def getTextureSetCount (sky : DistantSky) (index : Nat) : Option Nat :=
  (sky.textureSets[index]?).map (fun e => e.textures.length)

/-- Accessor `DistantSky::getStarCountFromDensity`; an unrecognized density is
a fatal configuration error, modelled as `none`. -/
def getStarCountFromDensity (starDensity : Nat) : Option Nat :=
  if starDensity = 0 then some 40
  else if starDensity = 1 then some 1000
  else if starDensity = 2 then some 8000
  else none

/-! ### The frame-advance state machine of `AnimatedLandObject::update` -/

/-- One frame-index advance: `index = (index < textureCount - 1) ? index + 1 : 0`. -/
def advanceIndex (index count : Nat) : Nat :=
  if index < count - 1 then index + 1 else 0

/-- The `while (currentFrameTime >= targetFrameTime)` loop of
`AnimatedLandObject::update`.  The guard carries `0 < target` (the invariant
asserted by the constructor and `setFrameTime`), which makes the loop
provably terminating; for positive target the branch condition is exactly the
source's. -/
def updateLoop (target current : ℚ) (index count : Nat) : ℚ × Nat :=
  if h : 0 < target ∧ target ≤ current then
    updateLoop target (current - target) (advanceIndex index count) count
  else
    (current, index)
termination_by (⌊current / target⌋).toNat
decreasing_by
  obtain ⟨ht, hc⟩ := h
  have h1 : (current - target) / target = current / target - 1 := by
    field_simp
  have h2 : (1 : ℤ) ≤ ⌊current / target⌋ := by
    rw [Int.le_floor]
    exact_mod_cast (one_le_div ht).mpr hc
  rw [h1, Int.floor_sub_one]
  omega

/-- Number of iterations performed by the `while` loop of `update`, following
the same recursion as `updateLoop`. -/
def updateIters (target current : ℚ) : Nat :=
  if h : 0 < target ∧ target ≤ current then
    updateIters target (current - target) + 1
  else
    0
termination_by (⌊current / target⌋).toNat
decreasing_by
  obtain ⟨ht, hc⟩ := h
  have h1 : (current - target) / target = current / target - 1 := by
    field_simp
  have h2 : (1 : ℤ) ≤ ⌊current / target⌋ := by
    rw [Int.le_floor]
    exact_mod_cast (one_le_div ht).mpr hc
  rw [h1, Int.floor_sub_one]
  omega

/-- `AnimatedLandObject::update(dt, distantSky)`: reads the frame count of its
texture set, and when there is at least one frame accumulates `dt` and runs
the subtract-and-advance loop.  An invalid set index (a contract violation in
the source's indexed accessor) is `none`. -/
def update (dt : ℚ) (sky : DistantSky) (obj : AnimatedLandObject) :
    Option AnimatedLandObject :=
  match getTextureSetCount sky obj.setEntryIndex with
  | none => none
  | some textureCount =>
    if 0 < textureCount then
      some { obj with
        currentFrameTime :=
          (updateLoop obj.targetFrameTime (obj.currentFrameTime + dt)
            obj.index textureCount).1,
        index :=
          (updateLoop obj.targetFrameTime (obj.currentFrameTime + dt)
            obj.index textureCount).2 }
    else
      some obj

/-- Helper iterating `update` over a list of animated land objects. -/
def updateAll (dt : ℚ) (sky : DistantSky) :
    List AnimatedLandObject → Option (List AnimatedLandObject)
  | [] => some []
  | obj :: rest =>
    match update dt sky obj, updateAll dt sky rest with
    | some obj', some rest' => some (obj' :: rest')
    | _, _ => none

/-- `DistantSky::tick(dt)`: update every animated land object. -/
def tick (dt : ℚ) (sky : DistantSky) : Option DistantSky :=
  (updateAll dt sky sky.animLandObjects).map
    (fun objs => { sky with animLandObjects := objs })

/-- Iterated `tick 0`, used to state zero-`dt` idempotence. -/
def tickN : Nat → DistantSky → Option DistantSky
  | 0, sky => some sky
  | n + 1, sky => (tick 0 sky).bind (tickN n)

/-! ### Star generation (the intermediate representation inside `init`) -/

/-- The `planets` slot array (`std::array<bool, 3>`): which of the three
planet star types 5, 6, 7 have already been used. -/
structure Planets where
  p0 : Bool
  p1 : Bool
  p2 : Bool
deriving DecidableEq

/-- Read a planet slot (`planets.at(k)` for `k < 3`). -/
def planetGet (p : Planets) : Nat → Bool
  | 0 => p.p0
  | 1 => p.p1
  | 2 => p.p2
  | _ => false

/-- Mark a planet slot taken. -/
def planetSet (p : Planets) : Nat → Planets
  | 0 => { p with p0 := true }
  | 1 => { p with p1 := true }
  | 2 => { p with p2 := true }
  | _ => p

/-- A constellation sub-star in the intermediate representation. -/
structure SubStar where
  dx : Int
  dy : Int
  color : Nat
deriving DecidableEq

/-- A star in the intermediate representation used by `init` before
conversion: raw signed coordinates, an optional sub-star list, and a type
(`-1` for constellations, `0`–`7` for large stars). -/
structure Star where
  x : Int
  y : Int
  z : Int
  subList : List SubStar
  type : Int
deriving DecidableEq

/-- The `getRndCoord` lambda: a signed 12-bit-range coordinate,
`d = (0x800 + next()) & 0x0FFF`, negated unless bit 1 of `d` is clear. -/
def getRndCoord (impl : SeqSourceImpl) (s : Nat) : Int × Nat :=
  let p := rnext impl s
  let d := (0x800 + p.1) &&& 0x0FFF
  (if d &&& 2 = 0 then (d : Int) else -(d : Int), p.2)

/-- Generate `n` constellation sub-stars: per sub-star a `dx` and `dy`
(16-bit draw cast to `int16_t`, arithmetically shifted right by 9) and a
palette color index in `[64, 74)`. -/
def genSubStars (impl : SeqSourceImpl) : Nat → Nat → List SubStar × Nat
  | 0, s => ([], s)
  | j + 1, s =>
    let p1 := rnext impl s
    let p2 := rnext impl p1.2
    let p3 := rnext impl p2.2
    let sub : SubStar := ⟨asr9 p1.1, asr9 p2.1, p3.1 % 10 + 64⟩
    let r := genSubStars impl j p3.2
    (sub :: r.1, r.2)

/-- The `do { value = next() % 8 } while (value >= 5 && planets.at(value - 5))`
retry loop of large-star generation.  The loop's termination depends on the
sequence source, so it is given fuel; exhausted fuel (`none`) models
divergence. -/
def pickStarType (impl : SeqSourceImpl) :
    Nat → Planets → Nat → Option (Nat × Planets × Nat)
  | 0, _, _ => none
  | fuel + 1, planets, s =>
    let p := rnext impl s
    let value := p.1 % 8
    if 5 ≤ value ∧ planetGet planets (value - 5) = true then
      pickStarType impl fuel planets p.2
    else if 5 ≤ value then
      some (value, planetSet planets (value - 5), p.2)
    else
      some (value, planets, p.2)

/-- The star-generation `for` loop of `init`: per star three raw coordinates,
a selector in `[0, 4)`, and either a constellation sub-star list (type `-1`)
or a large-star type from `pickStarType`.  Stars are appended in generation
order. -/
def genStarsLoop (impl : SeqSourceImpl) (fuel : Nat) :
    Nat → Planets → Nat → List Star → Option (List Star × Planets × Nat)
  | 0, planets, s, acc => some (acc, planets, s)
  | i + 1, planets, s, acc =>
    let px := getRndCoord impl s
    let py := getRndCoord impl px.2
    let pz := getRndCoord impl py.2
    let psel := rnext impl pz.2
    let selection := psel.1 % 4
    if selection ≠ 0 then
      let pn := rnext impl psel.2
      let n := 2 + pn.1 % 4
      let subs := genSubStars impl n pn.2
      genStarsLoop impl fuel i planets subs.2
        (acc ++ [⟨px.1, py.1, pz.1, subs.1, -1⟩])
    else
      match pickStarType impl fuel planets psel.2 with
      | none => none
      | some (value, planets', s') =>
        genStarsLoop impl fuel i planets' s'
          (acc ++ [⟨px.1, py.1, pz.1, [], (value : Int)⟩])

/-- The comparator-based sort of the generated star list
(`std::sort` with `a.type < b.type`); modelled by insertion sort under the
induced non-strict order, one valid implementation of the `std::sort`
contract (a sorted permutation). -/
def sortStars (l : List Star) : List Star :=
  l.insertionSort (fun a b => a.type ≤ b.type)

/-- Contract of `std::sort` with the strict comparator `a.type < b.type`:
any output is a permutation of the input that is sorted by the induced
non-strict order.  Tie order is not constrained. -/
def IsStdSortResult (l l' : List Star) : Prop :=
  l.Perm l' ∧ List.Pairwise (fun a b => a.type ≤ b.type) l'

/-! ### External collaborators and generation inputs -/

/-- City climate categories (`ClimateType`). -/
inductive ClimateType where
  | Temperate
  | Desert
  | Mountain
deriving DecidableEq, BEq

/-- Weather categories (`WeatherType`); only clear versus non-clear matters
to this core. -/
inductive WeatherType where
  | Clear
  | Overcast
  | Rainy
  | Snowy
deriving DecidableEq

/-- Location categories (`LocationDefinition::Type`). -/
inductive LocationType where
  | City
  | Town
  | Dungeon
deriving DecidableEq, BEq

/-- The city fields of a `LocationDefinition` consumed by `init`. -/
structure CityDefinition where
  climateType : ClimateType
  citySeed : Nat
  distantSkySeed : Nat

/-- The parts of `LocationDefinition` consumed by `init`. -/
structure LocationDefinition where
  locType : LocationType
  cityDef : CityDefinition

/-- The part of `ProvinceDefinition` consumed by `init`. -/
structure ProvinceDefinition where
  animatedDistantLand : Bool

/-- The legacy-data table entries consumed by `init` (`ExeData`). -/
structure ExeData where
  distantMountainFilenames : List String
  cloudFilename : String
  animDistantMountainFilenames : List String
  moonFilenames : List String
  starFilename : String
  sunFilename : String

/-- The external image loader (`TextureManager`), a pure collaborator:
`make8BitSurface` loads a single frame, `make8BitSurfaces` a frame sequence. -/
structure TextureManager where
  make8BitSurface : String → Buffer2D
  make8BitSurfaces : String → List Buffer2D

/-- Per-climate mountain placement traits (the fixed `MountainTraits`
table rows). -/
structure DistantMountainTraits where
  filenameIndex : Nat
  position : Nat
  variation : Nat
  maxDigits : Nat

/-- The fixed climate-to-traits table of `DistantSky.cpp`. -/
def MountainTraits : List (ClimateType × DistantMountainTraits) :=
  [(ClimateType.Temperate, ⟨2, 4, 10, 2⟩),
   (ClimateType.Desert, ⟨1, 6, 4, 1⟩),
   (ClimateType.Mountain, ⟨0, 6, 11, 2⟩)]

/-- All inputs of one `init` run: the sequence-source implementation (with
fuel bounding the large-star retry loop), the external collaborators, and the
generation inputs proper.  `getLocalCityPoint` and `getDistance` stand for
`LocationUtils::getLocalCityPoint` and `CityDataFile::getDistance`, and
`palette` for the default-palette color lookup (ARGB), all collaborators
outside the shown code.  `defaultFrameTime` stands for
`AnimatedLandObject::DEFAULT_FRAME_TIME`, whose defining header is also
outside the shown code. -/
structure InitArgs where
  impl : SeqSourceImpl
  fuel : Nat
  tm : TextureManager
  palette : Nat → Nat
  getLocalCityPoint : Nat → Int × Int
  getDistance : Int × Int → Int × Int → Int
  defaultFrameTime : ℚ
  locationDef : LocationDefinition
  provinceDef : ProvinceDefinition
  weatherType : WeatherType
  currentDay : Nat
  starCount : Nat
  exeData : ExeData

/-- The generation state threaded through `init`: the aggregate being filled,
the sequence source's current seed, plus ghost bookkeeping used only in
specifications — the identifiers passed to the image loader for each store,
the values passed to `srand` after construction, and the sorted intermediate
star list. -/
structure GenState where
  sky : DistantSky
  rngSeed : Nat
  texLoads : List String
  texSetLoads : List String
  reseeds : List Nat
  stars : List Star

/-- Identifiers currently in the single-texture store, in index order. -/
def texNames (sky : DistantSky) : List String :=
  sky.textures.map TextureEntry.filename

/-- Identifiers currently in the texture-set store, in index order. -/
def setNames (sky : DistantSky) : List String :=
  sky.textureSets.map TextureSetEntry.filename

/-- The repeated lookup-or-create pattern on the single-texture store
(`fixEntryIndexIfMissing` and its inlined copies): returns the updated
aggregate, the entry's index, and whether the loader was invoked. -/
def getOrCreateTextureIndex (tm : TextureManager) (sky : DistantSky)
    (filename : String) : DistantSky × Nat × Bool :=
  match getTextureEntryIndex sky filename with
  | some i => (sky, i, false)
  | none =>
    ({ sky with textures := sky.textures ++ [⟨filename, tm.make8BitSurface filename⟩] },
     sky.textures.length, true)

/-- State-level wrapper of `getOrCreateTextureIndex` recording loader
invocations in the ghost log. -/
def loadTexture (tm : TextureManager) (st : GenState) (filename : String) :
    GenState × Nat :=
  let r := getOrCreateTextureIndex tm st.sky filename
  ({ st with
      sky := r.1,
      texLoads := if r.2.2 then st.texLoads ++ [filename] else st.texLoads },
   r.2.1)

/-! ### The phases of `DistantSky::init` -/

/-- Tail of one `placeStaticObjects` iteration: resolve (or create) the
texture index for the computed filename and append a `LandObject` or
`AirObject` with the converted angle (and, for air, the normalized height). -/
noncomputable def addStatic (A : InitArgs) (randomHeight : Bool)
    (filename : String) (arenaAngle yPos : Nat) (st : GenState) : GenState :=
  let angleRadians := arenaAngleToRadians arenaAngle
  let r := loadTexture A.tm st filename
  if randomHeight then
    { r.1 with sky := { r.1.sky with
        airObjects := r.1.sky.airObjects ++ [⟨r.2, angleRadians, (yPos : ℚ) / 64⟩] } }
  else
    { r.1 with sky := { r.1.sky with
        landObjects := r.1.sky.landObjects ++ [⟨r.2, angleRadians⟩] } }

/-- One iteration of the `placeStaticObjects` lambda: draw the filename
variant digits, substitute them into the base filename (out-of-range
positions fault, like `std::string::at`), optionally draw a height bucket,
draw the angle unit, then resolve the texture and append the object. -/
noncomputable def placeOneStatic (A : InitArgs) (baseFilename : String)
    (pos vr maxDigits : Nat) (randomHeight : Bool) (st : GenState) :
    Option GenState :=
  let p1 := rnext A.impl st.rngSeed
  let randVal := p1.1 % vr
  let digitsVal := if randVal = 0 then vr else randVal
  let digits := (Nat.repr digitsVal).data
  if digits.length ≤ maxDigits then
    match setChars baseFilename.data (pos + (maxDigits - digits.length)) digits with
    | none => none
    | some chars =>
      let filename := toUppercase (String.mk chars)
      let p2 := if randomHeight then
          (let q := rnext A.impl p1.2; (q.1 % 64, q.2))
        else (0, p1.2)
      let p3 := rnext A.impl p2.2
      some (addStatic A randomHeight filename (p3.1 % 512) p2.1
        { st with rngSeed := p3.2 })
  else
    none

/-- The `placeStaticObjects` lambda: `count` independent iterations. -/
noncomputable def placeStaticObjects (A : InitArgs) (baseFilename : String)
    (pos vr maxDigits : Nat) (randomHeight : Bool) :
    Nat → GenState → Option GenState
  | 0, st => some st
  | n + 1, st =>
    match placeOneStatic A baseFilename pos vr maxDigits randomHeight st with
    | none => none
    | some st' => placeStaticObjects A baseFilename pos vr maxDigits randomHeight n st'

/-- Mountain phase of `init`: check the location is a city, look up the
climate's mountain traits and base filename, seed the sequence source with
the distant-sky seed, draw the object count `(next() % 4) + 2`, and place
that many land objects. -/
noncomputable def mountainPhase (A : InitArgs) : Option GenState :=
  if A.locationDef.locType = LocationType.City then
    match (MountainTraits.find? (fun pr => pr.1 == A.locationDef.cityDef.climateType)).map Prod.snd with
    | none => none
    | some mtnTraits =>
      match A.exeData.distantMountainFilenames[mtnTraits.filenameIndex]? with
      | none => none
      | some baseFilename =>
        let st0 : GenState :=
          ⟨emptySky, A.locationDef.cityDef.distantSkySeed % U32, [], [], [], []⟩
        let p0 := rnext A.impl st0.rngSeed
        let count := p0.1 % 4 + 2
        placeStaticObjects A baseFilename mtnTraits.position mtnTraits.variation
          mtnTraits.maxDigits false count { st0 with rngSeed := p0.2 }
  else
    none

/-- Cloud phase of `init`: only under clear weather, reseed the sequence
source with `getSeed() + (currentDay % 32)` (32-bit wrap) and place 7 air
objects from the fixed cloud template. -/
noncomputable def cloudPhase (A : InitArgs) (st : GenState) : Option GenState :=
  if A.weatherType = WeatherType.Clear then
    let cloudSeed := (st.rngSeed + A.currentDay % 32) % U32
    placeStaticObjects A A.exeData.cloudFilename 5 17 2 true 7
      { st with rngSeed := cloudSeed, reseeds := st.reseeds ++ [cloudSeed] }
  else
    some st

/-- Animated-land phase of `init`: when the province has an animated distant
land, pick the animation variant by map distance, compute the horizon angle
via `atan2`, load the frame set (multi-frame for `.DFA`, single otherwise)
unless already present, and append the one `AnimatedLandObject`. -/
noncomputable def animPhase (A : InitArgs) (st : GenState) : Option GenState :=
  if A.provinceDef.animatedDistantLand then
    let animLandGlobalPos : Int × Int := (132, 52)
    let locationGlobalPos := A.getLocalCityPoint A.locationDef.cityDef.citySeed
    let dist := A.getDistance locationGlobalPos animLandGlobalPos
    let angle := atan2 ((locationGlobalPos.2 - animLandGlobalPos.2 : Int) : ℝ)
      ((animLandGlobalPos.1 - locationGlobalPos.1 : Int) : ℝ)
    let animIndex : Nat := if dist < 80 then 0 else if dist < 150 then 1 else 2
    match A.exeData.animDistantMountainFilenames[animIndex]? with
    | none => none
    | some fn0 =>
      let animFilename := toUppercase fn0
      let r :=
        match getTextureSetEntryIndex st.sky animFilename with
        | some i => (st, i)
        | none =>
          let entry : TextureSetEntry :=
            if containsSeq ".DFA".data animFilename.data then
              ⟨animFilename, A.tm.make8BitSurfaces animFilename⟩
            else
              ⟨animFilename, [A.tm.make8BitSurface animFilename]⟩
          ({ st with
              sky := { st.sky with textureSets := st.sky.textureSets ++ [entry] },
              texSetLoads := st.texSetLoads ++ [animFilename] },
           st.sky.textureSets.length)
      some { r.1 with sky := { r.1.sky with
          animLandObjects := r.1.sky.animLandObjects ++
            [⟨r.2, angle, A.defaultFrameTime, 0, 0⟩] } }
  else
    some st

/-- The `makeMoon` lambda: derive the phase index from the day count and the
moon kind, and load the moon's phase frame as a standalone texture entry
unless the (uppercased) moon filename is already in the store. -/
noncomputable def makeMoon (A : InitArgs) (st : GenState) (ty : MoonType) :
    Option (GenState × MoonObject) :=
  let phaseCount : Nat := 32
  let phaseIndex : Nat :=
    match ty with
    | MoonType.First => A.currentDay % phaseCount
    | MoonType.Second => (A.currentDay + 14) % phaseCount
  let moonIndex : Nat := match ty with | MoonType.First => 0 | MoonType.Second => 1
  match A.exeData.moonFilenames[moonIndex]? with
  | none => none
  | some fn0 =>
    let filename := toUppercase fn0
    let phasePercent : ℚ := (phaseIndex : ℚ) / (phaseCount : ℚ)
    match getTextureEntryIndex st.sky filename with
    | some i => some (st, (⟨i, phasePercent, ty⟩ : MoonObject))
    | none =>
      let surfaces := A.tm.make8BitSurfaces filename
      match surfaces[phaseIndex]? with
      | none => none
      | some surface =>
        some ({ st with
            sky := { st.sky with textures := st.sky.textures ++ [⟨filename, surface⟩] },
            texLoads := st.texLoads ++ [filename] },
          (⟨st.sky.textures.length, phasePercent, ty⟩ : MoonObject))

/-- Direction of a star: its raw coordinates normalized to a unit vector. -/
noncomputable def starDirection (star : Star) : ℝ × ℝ × ℝ :=
  normalize3 ((star.x : ℝ), (star.y : ℝ), (star.z : ℝ))

/-- Direction of a constellation sub-star: the parent's base direction
rotated about the horizontal axis by the `dx`-derived angle, then about the
vertical axis by the `dy`-derived angle. -/
noncomputable def subStarDirection (direction : ℝ × ℝ × ℝ) (sub : SubStar) :
    ℝ × ℝ × ℝ :=
  let dxPercent := (sub.dx : ℝ) / IDENTITY_DIM
  let dyPercent := (sub.dy : ℝ) / IDENTITY_DIM
  let dxRadians := dxPercent * IDENTITY_ANGLE_RADIANS
  let dyRadians := dyPercent * IDENTITY_ANGLE_RADIANS
  rotateY dyRadians (rotateX dxRadians direction)

/-- Convert one intermediate star to its modern representation: a
constellation expands to one small `StarObject` per sub-star (palette color,
rotated direction); a large star resolves the numbered star filename (the
template's `'1'` replaced by `type + 1`; a template without `'1'` faults)
and appends one large `StarObject`. -/
noncomputable def convertOneStar (A : InitArgs) (st : GenState) (star : Star) :
    Option GenState :=
  if star.type = -1 then
    some { st with sky := { st.sky with
        starObjects := st.sky.starObjects ++
          star.subList.map (fun sub =>
            StarObject.small (A.palette sub.color)
              (subStarDirection (starDirection star) sub)) } }
  else
    match findIndex (fun c => c == '1') (A.exeData.starFilename).data with
    | none => none
    | some i =>
      let starFilename := toUppercase (String.mk
        ((A.exeData.starFilename).data.take i ++ (Int.repr (star.type + 1)).data ++
          (A.exeData.starFilename).data.drop (i + 1)))
      let r := loadTexture A.tm st starFilename
      some { r.1 with sky := { r.1.sky with
          starObjects := r.1.sky.starObjects ++
            [StarObject.large r.2 (starDirection star)] } }

/-- Convert the (sorted) intermediate star list in order. -/
noncomputable def convertStars (A : InitArgs) :
    List Star → GenState → Option GenState
  | [], st => some st
  | star :: rest, st =>
    match convertOneStar A st star with
    | none => none
    | some st' => convertStars A rest st'

/-- Space phase of `init`: only under clear weather — push the two moons,
reseed the sequence source with the fixed star seed `0x12345679`, generate
and sort the star list, convert it, and resolve the sun texture. -/
noncomputable def spacePhase (A : InitArgs) (st : GenState) : Option GenState :=
  if A.weatherType = WeatherType.Clear then
    match makeMoon A st MoonType.First with
    | none => none
    | some (st1, moon1) =>
      let st1' := { st1 with sky := { st1.sky with
          moonObjects := st1.sky.moonObjects ++ [moon1] } }
      match makeMoon A st1' MoonType.Second with
      | none => none
      | some (st2, moon2) =>
        let st2' := { st2 with
          sky := { st2.sky with moonObjects := st2.sky.moonObjects ++ [moon2] },
          rngSeed := 0x12345679 % U32,
          reseeds := st2.reseeds ++ [0x12345679 % U32] }
        match genStarsLoop A.impl A.fuel A.starCount ⟨false, false, false⟩
            st2'.rngSeed [] with
        | none => none
        | some (rawStars, _, s') =>
          let sorted := sortStars rawStars
          match convertStars A sorted
              { st2' with rngSeed := s', stars := sorted } with
          | none => none
          | some st3 =>
            let sunFilename := toUppercase A.exeData.sunFilename
            let r := loadTexture A.tm st3 sunFilename
            some { r.1 with sky := { r.1.sky with sunEntryIndex := some r.2 } }
  else
    some st

/-- The whole of `DistantSky::init`, as the composition of its four phases. -/
noncomputable def initState (A : InitArgs) : Option GenState :=
  (((mountainPhase A).bind (cloudPhase A)).bind (animPhase A)).bind (spacePhase A)

/-- The aggregate produced by `DistantSky::init`. -/
noncomputable def init (A : InitArgs) : Option DistantSky :=
  (initState A).map GenState.sky

/-! ### A concrete sequence-source implementation and input set

Used to instantiate the theorems below at explicit inputs.  The step
function always draws 0 and increments the seed, which satisfies the
sequence-source contract. -/

/-- A concrete sequence source: every draw is 0, the seed increments. -/
def stepSucc : SeqSourceImpl := ⟨fun s => (0, s + 1)⟩

/-- A concrete image loader: single frames are 1×1, frame sets have 32
frames. -/
def tmConst : TextureManager := ⟨fun _ => [[0]], fun _ => List.replicate 32 [[0]]⟩

/-- A concrete legacy-data table. -/
def exeDataC : ExeData :=
  ⟨["M0.IMG", "M1.IMG", "TEMP00.IMG"], "CLOUD00.IMG", ["ANIM.DFA"],
   ["MOONA.IMG", "MOONB.IMG"], "STAR1.IMG", "SUN.IMG"⟩

/-- A concrete input set: Temperate city, clear weather, day 0, star count
40, distant-sky seed 10, with an animated distant land. -/
def argsC : InitArgs :=
  ⟨stepSucc, 8, tmConst, fun _ => 0, fun _ => (0, 0), fun _ _ => 0, 1,
   ⟨LocationType.City, ⟨ClimateType.Temperate, 0, 10⟩⟩, ⟨true⟩,
   WeatherType.Clear, 0, 40, exeDataC⟩

/-! ### Specification predicates used to state the claims -/

/-- Direction stored in a `StarObject`, regardless of variant. -/
def starObjDirection : StarObject → ℝ × ℝ × ℝ
  | StarObject.small _ d => d
  | StarObject.large _ d => d

/-- An angle value of the fixed Arena conversion: the image of some angle
unit in `[0, 512)`. -/
def AngleOK (x : ℝ) : Prop := ∃ u : Nat, u < 512 ∧ x = arenaAngleToRadians u

/-- Every land and air object's angle comes from the fixed conversion and
lies in the interval `(-π/2, 3π/2]` it actually produces. -/
def anglesWellFormed (sky : DistantSky) : Prop :=
  (∀ o ∈ sky.landObjects, AngleOK o.angleRadians ∧
    -(Real.pi / 2) < o.angleRadians ∧ o.angleRadians ≤ 3 * Real.pi / 2) ∧
  (∀ o ∈ sky.airObjects, AngleOK o.angleRadians ∧
    -(Real.pi / 2) < o.angleRadians ∧ o.angleRadians ≤ 3 * Real.pi / 2)

/-- State-level form of `anglesWellFormed`, for closed instantiations. -/
def stateAnglesOK (st : GenState) : Prop := anglesWellFormed st.sky

/-- No two stars of a list share a type value in the planet range `[5, 8)`
(types never exceed 7, so only the lower bound matters). -/
def PlanetsUniqueIn (l : List Star) : Prop :=
  l.Pairwise (fun a b => ¬(5 ≤ a.type ∧ a.type = b.type))

/-- State-level planet uniqueness of the generated star list. -/
def starsPlanetsUnique (st : GenState) : Prop := PlanetsUniqueIn st.stars

/-- The generated star list is sorted ascending by type, and in particular
no constellation star (type `-1`) follows a large star. -/
def starsSortedOK (st : GenState) : Prop :=
  List.Pairwise (fun a b : Star => a.type ≤ b.type) st.stars ∧
  List.Pairwise (fun a b : Star => b.type = -1 → a.type = -1) st.stars

/-- Outcome of the end-to-end scenario (day 0, star count 40): the
mountain count is `2 + (first draw % 4)` (hence within `[2, 5]`), exactly 7
clouds, moons with phase percents `0` and `14/32`, a present sun, and 40
generated stars. -/
def scenarioOK (A : InitArgs) (st : GenState) : Prop :=
  st.sky.landObjects.length =
    2 + (rnext A.impl (A.locationDef.cityDef.distantSkySeed % U32)).1 % 4 ∧
  2 ≤ st.sky.landObjects.length ∧ st.sky.landObjects.length ≤ 5 ∧
  st.sky.airObjects.length = 7 ∧
  st.sky.moonObjects.map MoonObject.phasePercent = [0, 14 / 32] ∧
  st.sky.sunEntryIndex.isSome = true ∧
  st.stars.length = A.starCount

/-- Reseed protocol of a run: under clear weather the `srand` calls are the
cloud seed — the sequence source's seed value after the mountain draws plus
`currentDay % 32`, with 32-bit wrap — followed by the fixed star seed; under
non-clear weather no reseed happens and no cloud is placed. -/
def reseedsOK (A : InitArgs) (st : GenState) : Prop :=
  (A.weatherType = WeatherType.Clear →
    ∃ stm, mountainPhase A = some stm ∧
      st.reseeds = [(stm.rngSeed + A.currentDay % 32) % U32, 0x12345679 % U32]) ∧
  (A.weatherType ≠ WeatherType.Clear → st.sky.airObjects = [] ∧ st.reseeds = [])

/-- The ghost loader logs of a run contain no duplicate identifier, and
neither store contains a duplicate identifier. -/
def logsOK (st : GenState) : Prop :=
  st.texLoads.Nodup ∧ (texNames st.sky).Nodup ∧
  st.texSetLoads.Nodup ∧ (setNames st.sky).Nodup

/-- Fields of the generation state that static placement never touches. -/
def PlaceUntouched (st0 st : GenState) : Prop :=
  st.sky.textureSets = st0.sky.textureSets ∧
  st.sky.animLandObjects = st0.sky.animLandObjects ∧
  st.sky.moonObjects = st0.sky.moonObjects ∧
  st.sky.starObjects = st0.sky.starObjects ∧
  st.sky.sunEntryIndex = st0.sky.sunEntryIndex ∧
  st.texSetLoads = st0.texSetLoads ∧
  st.reseeds = st0.reseeds ∧
  st.stars = st0.stars

/-- Fields of the generation state that star conversion and single-texture
loads never touch. -/
def ConvUntouched (st0 st : GenState) : Prop :=
  st.sky.landObjects = st0.sky.landObjects ∧
  st.sky.airObjects = st0.sky.airObjects ∧
  st.sky.animLandObjects = st0.sky.animLandObjects ∧
  st.sky.moonObjects = st0.sky.moonObjects ∧
  st.sky.textureSets = st0.sky.textureSets ∧
  st.sky.sunEntryIndex = st0.sky.sunEntryIndex ∧
  st.texSetLoads = st0.texSetLoads ∧
  st.reseeds = st0.reseeds ∧
  st.stars = st0.stars

/-- Invariant of the single-texture store and its ghost loader log: the log
has no duplicates, the store has no duplicate identifiers, and everything
logged is in the store. -/
def TexInv (st : GenState) : Prop :=
  st.texLoads.Nodup ∧ (texNames st.sky).Nodup ∧
  ∀ f ∈ st.texLoads, f ∈ texNames st.sky

/-- Invariant of the texture-set store and its ghost loader log. -/
def SetInv (st : GenState) : Prop :=
  st.texSetLoads.Nodup ∧ (setNames st.sky).Nodup ∧
  ∀ f ∈ st.texSetLoads, f ∈ setNames st.sky

/-- Requesting the same identifier again right after a request yields the
same index and does not invoke the loader. -/
def getOrCreateIdempotent : Prop :=
  ∀ tm sky fn, getOrCreateTextureIndex tm (getOrCreateTextureIndex tm sky fn).1 fn =
    ((getOrCreateTextureIndex tm sky fn).1, (getOrCreateTextureIndex tm sky fn).2.1, false)

/-- Distinct identifiers are never assigned the same index. -/
def getOrCreateInjective : Prop :=
  ∀ tm tm2 sky fn1 fn2, fn1 ≠ fn2 →
    (getOrCreateTextureIndex tm2 (getOrCreateTextureIndex tm sky fn1).1 fn2).2.1 ≠
      (getOrCreateTextureIndex tm sky fn1).2.1

/-- The single-texture store only ever grows by appending. -/
def storeAppendOnly : Prop :=
  ∀ tm sky fn, ∃ t, (getOrCreateTextureIndex tm sky fn).1.textures = sky.textures ++ t

/-- Closed form of `update` for a positive frame count: `dt` is accumulated
and the loop subtracts the (positive) target `updateIters` many times while
advancing the frame index cyclically. -/
def updateGeneralSpec : Prop :=
  ∀ (dt : ℚ) (sky : DistantSky) (obj : AnimatedLandObject) (n : Nat),
    getTextureSetCount sky obj.setEntryIndex = some n → 0 < n → obj.index < n →
    0 < obj.targetFrameTime →
    update dt sky obj = some { obj with
      currentFrameTime := obj.currentFrameTime + dt -
        (updateIters obj.targetFrameTime (obj.currentFrameTime + dt) : ℚ) *
          obj.targetFrameTime,
      index := (obj.index + updateIters obj.targetFrameTime
        (obj.currentFrameTime + dt)) % n }

/-- With a zero-frame texture set, `update` is a no-op. -/
def updateZeroFramesNoop : Prop :=
  ∀ (dt : ℚ) (sky : DistantSky) (obj : AnimatedLandObject),
    getTextureSetCount sky obj.setEntryIndex = some 0 → update dt sky obj = some obj

/-- The result of `update` exists and leaves the frame timer in `[0, t)`. -/
def updateResultInRange (t : ℚ) : Option AnimatedLandObject → Prop
  | some o => 0 ≤ o.currentFrameTime ∧ o.currentFrameTime < t
  | none => False

/-- Any number of `tick 0` steps leaves the aggregate unchanged. -/
def tickZeroFixed (sky : DistantSky) : Prop := ∀ n, tickN n sky = some sky

/-- States of the aggregate reachable from a successful `init` run through
`tick` steps. -/
inductive Reachable (A : InitArgs) : DistantSky → Prop where
  | base {sky : DistantSky} : init A = some sky → Reachable A sky
  | step {sky sky' : DistantSky} (dt : ℚ) :
      Reachable A sky → tick dt sky = some sky' → Reachable A sky'

/-- Invariant of reachable aggregates: every animated land object has a
positive target frame time, a frame timer strictly below it, and a valid
texture-set index. -/
def SkyGood (sky : DistantSky) : Prop :=
  ∀ o ∈ sky.animLandObjects,
    0 < o.targetFrameTime ∧ o.currentFrameTime < o.targetFrameTime ∧
    o.setEntryIndex < sky.textureSets.length

/-- A concrete aggregate holding one 3-frame texture set. -/
def skyW : DistantSky :=
  { emptySky with textureSets := [⟨"A.DFA", [[[0]], [[0]], [[0]]]⟩] }

/-- A concrete animated land object: target frame time 1, timer 0, index 0. -/
def objW : AnimatedLandObject := ⟨0, 0, 1, 0, 0⟩

/-- Concrete stars for the sort-contract counterexample: equal type, distinct
coordinates. -/
def starA : Star := ⟨1, 0, 0, [], 0⟩

/-- Second concrete star of the sort-contract counterexample. -/
def starB : Star := ⟨2, 0, 0, [], 0⟩

/-! ## Lemmas about the frame-advance state machine -/

theorem rnext_lt (impl : SeqSourceImpl) (s : Nat) : (rnext impl s).1 < 65536 :=
  Nat.mod_lt _ (by norm_num)

theorem updateLoop_fst_lt (target : ℚ) (ht : 0 < target) (current : ℚ)
    (index count : Nat) : (updateLoop target current index count).1 < target := by
  induction current, index, count using updateLoop.induct target with
  | case1 current index count h ih =>
    rw [updateLoop, dif_pos h]
    exact ih
  | case2 current index count h =>
    rw [updateLoop, dif_neg h]
    push_neg at h
    exact h ht

theorem updateLoop_fst_nonneg (target : ℚ) (current : ℚ) (index count : Nat) :
    0 ≤ current → 0 ≤ (updateLoop target current index count).1 := by
  induction current, index, count using updateLoop.induct target with
  | case1 current index count h ih =>
    intro _
    rw [updateLoop, dif_pos h]
    exact ih (by linarith [h.1, h.2])
  | case2 current index count h =>
    intro hc
    rw [updateLoop, dif_neg h]
    exact hc

theorem updateIters_eq_floor (target : ℚ) (ht : 0 < target) (current : ℚ) :
    updateIters target current = (⌊current / target⌋).toNat := by
  induction current using updateIters.induct target with
  | case1 c h ih =>
    rw [updateIters, dif_pos h, ih]
    have h1 : (c - target) / target = c / target - 1 := by field_simp
    have h2 : (1 : ℤ) ≤ ⌊c / target⌋ := by
      rw [Int.le_floor]
      exact_mod_cast (one_le_div ht).mpr h.2
    rw [h1, Int.floor_sub_one]
    omega
  | case2 c h =>
    rw [updateIters, dif_neg h]
    push_neg at h
    have h2 : c / target < 1 := (div_lt_one ht).mpr (h ht)
    have h3 : ⌊c / target⌋ < 1 := Int.floor_lt.mpr (by exact_mod_cast h2)
    omega

theorem updateLoop_fst_eq (target : ℚ) (current : ℚ) (index count : Nat) :
    (updateLoop target current index count).1 =
      current - (updateIters target current : ℚ) * target := by
  induction current, index, count using updateLoop.induct target with
  | case1 current index count h ih =>
    rw [updateLoop, dif_pos h, updateIters, dif_pos h, ih]
    push_cast
    ring
  | case2 current index count h =>
    rw [updateLoop, dif_neg h, updateIters, dif_neg h]
    simp

theorem advanceIndex_mod (i n : Nat) (hi : i < n) :
    advanceIndex i n = (i + 1) % n := by
  unfold advanceIndex
  by_cases h : i < n - 1
  · rw [if_pos h, Nat.mod_eq_of_lt (by omega)]
  · rw [if_neg h]
    have hin : i = n - 1 := by omega
    subst hin
    rw [Nat.sub_add_cancel (by omega), Nat.mod_self]

theorem advanceIndex_lt (i n : Nat) (hn : 0 < n) : advanceIndex i n < n := by
  unfold advanceIndex
  by_cases h : i < n - 1
  · rw [if_pos h]; omega
  · rw [if_neg h]; omega

theorem updateLoop_snd_eq (target : ℚ) (current : ℚ) (index count : Nat) :
    index < count →
    (updateLoop target current index count).2 =
      (index + updateIters target current) % count := by
  induction current, index, count using updateLoop.induct target with
  | case1 current index count h ih =>
    intro hi
    have hn : 0 < count := Nat.lt_of_le_of_lt (Nat.zero_le _) hi
    rw [updateLoop, dif_pos h, updateIters, dif_pos h,
      ih (advanceIndex_lt index count hn), advanceIndex_mod index count hi,
      Nat.mod_add_mod]
    congr 1
    omega
  | case2 current index count h =>
    intro hi
    rw [updateLoop, dif_neg h, updateIters, dif_neg h]
    rw [Nat.add_zero, Nat.mod_eq_of_lt hi]

theorem getTextureSetCount_of_lt {sky : DistantSky} {i : Nat}
    (h : i < sky.textureSets.length) : ∃ n, getTextureSetCount sky i = some n := by
  unfold getTextureSetCount
  rw [List.getElem?_eq_getElem h]
  exact ⟨_, rfl⟩

theorem update_eq_of_pos (dt : ℚ) (sky : DistantSky) (obj : AnimatedLandObject)
    (n : Nat) (hn : getTextureSetCount sky obj.setEntryIndex = some n)
    (h0 : 0 < n) :
    update dt sky obj = some { obj with
      currentFrameTime :=
        (updateLoop obj.targetFrameTime (obj.currentFrameTime + dt) obj.index n).1,
      index :=
        (updateLoop obj.targetFrameTime (obj.currentFrameTime + dt) obj.index n).2 } := by
  simp only [update, hn]
  rw [if_pos h0]

theorem update_eq_of_zero (dt : ℚ) (sky : DistantSky) (obj : AnimatedLandObject)
    (hn : getTextureSetCount sky obj.setEntryIndex = some 0) :
    update dt sky obj = some obj := by
  simp only [update, hn]
  rw [if_neg (lt_irrefl 0)]

theorem update_spec_general : updateGeneralSpec := by
  intro dt sky obj n hn h0 hi ht
  rw [update_eq_of_pos dt sky obj n hn h0, updateLoop_fst_eq,
    updateLoop_snd_eq obj.targetFrameTime (obj.currentFrameTime + dt) obj.index n hi]

theorem update_spec_zero_frames : updateZeroFramesNoop := by
  intro dt sky obj h
  exact update_eq_of_zero dt sky obj h

theorem update_zero_eq (sky : DistantSky) (obj : AnimatedLandObject)
    (ht : 0 < obj.targetFrameTime)
    (hc : obj.currentFrameTime < obj.targetFrameTime)
    (hidx : obj.setEntryIndex < sky.textureSets.length) :
    update 0 sky obj = some obj := by
  obtain ⟨n, hn⟩ := getTextureSetCount_of_lt hidx
  by_cases h0 : 0 < n
  · rw [update_eq_of_pos 0 sky obj n hn h0]
    have hguard : ¬(0 < obj.targetFrameTime ∧
        obj.targetFrameTime ≤ obj.currentFrameTime + 0) := by
      rw [add_zero]
      exact fun hcon => absurd hcon.2 (not_le.mpr hc)
    rw [updateLoop, dif_neg hguard]
    simp
  · have hn0 : n = 0 := by omega
    subst hn0
    exact update_eq_of_zero 0 sky obj hn

theorem update_fields (dt : ℚ) (sky : DistantSky) (obj obj' : AnimatedLandObject)
    (h : update dt sky obj = some obj') :
    obj'.targetFrameTime = obj.targetFrameTime ∧
    obj'.setEntryIndex = obj.setEntryIndex ∧
    (0 < obj.targetFrameTime → obj.currentFrameTime < obj.targetFrameTime →
      obj'.currentFrameTime < obj'.targetFrameTime) := by
  cases hn : getTextureSetCount sky obj.setEntryIndex with
  | none => simp only [update, hn] at h; exact Option.noConfusion h
  | some n =>
    simp only [update, hn] at h
    by_cases h0 : 0 < n
    · rw [if_pos h0] at h
      injection h with h
      subst h
      refine ⟨rfl, rfl, fun ht _ => ?_⟩
      exact updateLoop_fst_lt obj.targetFrameTime ht _ _ _
    · rw [if_neg h0] at h
      injection h with h
      subst h
      exact ⟨rfl, rfl, fun _ hc => hc⟩

theorem updateAll_zero (sky : DistantSky) :
    ∀ objs, (∀ o ∈ objs, 0 < o.targetFrameTime ∧
        o.currentFrameTime < o.targetFrameTime ∧
        o.setEntryIndex < sky.textureSets.length) →
      updateAll 0 sky objs = some objs := by
  intro objs
  induction objs with
  | nil => intro _; rfl
  | cons o rest ih =>
    intro h
    have h1 := update_zero_eq sky o (h o (by simp)).1 (h o (by simp)).2.1
      (h o (by simp)).2.2
    have h2 := ih (fun o' ho' => h o' (by simp [ho']))
    simp only [updateAll, h1, h2]

theorem updateAll_mem (dt : ℚ) (sky : DistantSky) :
    ∀ objs objs', updateAll dt sky objs = some objs' →
      ∀ o' ∈ objs', ∃ o ∈ objs, update dt sky o = some o' := by
  intro objs
  induction objs with
  | nil =>
    intro objs' h o' ho'
    unfold updateAll at h
    injection h with h
    subst h
    exact absurd ho' (List.not_mem_nil o')
  | cons o rest ih =>
    intro objs' h o' ho'
    unfold updateAll at h
    cases h1 : update dt sky o with
    | none => rw [h1] at h; exact absurd h (by simp)
    | some oo =>
      cases h2 : updateAll dt sky rest with
      | none => rw [h1, h2] at h; exact absurd h (by simp)
      | some rest' =>
        rw [h1, h2] at h
        injection h with h
        subst h
        rcases List.mem_cons.mp ho' with h3 | h3
        · exact ⟨o, by simp, h3 ▸ h1⟩
        · obtain ⟨o0, ho0, hu⟩ := ih rest' h2 o' h3
          exact ⟨o0, by simp [ho0], hu⟩

theorem tick_zero_of_good (sky : DistantSky) (hg : SkyGood sky) :
    tick 0 sky = some sky := by
  unfold tick
  rw [updateAll_zero sky sky.animLandObjects hg]
  rfl

theorem tick_textureSets (dt : ℚ) (sky sky' : DistantSky)
    (h : tick dt sky = some sky') :
    sky'.textureSets = sky.textureSets ∧
    ∃ objs', sky'.animLandObjects = objs' ∧
      updateAll dt sky sky.animLandObjects = some objs' := by
  unfold tick at h
  cases h1 : updateAll dt sky sky.animLandObjects with
  | none => rw [h1] at h; exact absurd h (by simp)
  | some objs' =>
    rw [h1] at h
    injection h with h
    subst h
    exact ⟨rfl, objs', rfl, rfl⟩

theorem tick_preserves_good (dt : ℚ) (sky sky' : DistantSky)
    (h : tick dt sky = some sky') (hg : SkyGood sky) : SkyGood sky' := by
  obtain ⟨hsets, objs', hobjs, hall⟩ := tick_textureSets dt sky sky' h
  intro o' ho'
  rw [hobjs] at ho'
  obtain ⟨o, ho, hu⟩ := updateAll_mem dt sky sky.animLandObjects objs' hall o' ho'
  obtain ⟨h1, h2, h3⟩ := update_fields dt sky o o' hu
  obtain ⟨g1, g2, g3⟩ := hg o ho
  refine ⟨h1 ▸ g1, h3 g1 g2, ?_⟩
  rw [hsets, h2]
  exact g3

theorem tickN_fixed_of_good (sky : DistantSky) (hg : SkyGood sky) :
    ∀ n, tickN n sky = some sky := by
  intro n
  induction n with
  | zero => rfl
  | succ n ih =>
    unfold tickN
    rw [tick_zero_of_good sky hg]
    exact ih

/-! ## Lemmas about the deduplicating texture stores -/

theorem findIndex_eq_none_iff {α : Type} (p : α → Bool) (l : List α) :
    findIndex p l = none ↔ ∀ a ∈ l, p a = false := by
  induction l with
  | nil => simp [findIndex]
  | cons a rest ih =>
    by_cases h : p a
    · simp [findIndex, h]
    · simp [findIndex, h, ih]

theorem findIndex_eq_some {α : Type} (p : α → Bool) :
    ∀ (l : List α) (i : Nat), findIndex p l = some i →
      ∃ a, l[i]? = some a ∧ p a = true := by
  intro l
  induction l with
  | nil => intro i h; simp [findIndex] at h
  | cons a rest ih =>
    intro i h
    by_cases hp : p a
    · simp [findIndex, hp] at h
      subst h
      exact ⟨a, by simp, hp⟩
    · simp [findIndex, hp, Option.map_eq_some'] at h
      obtain ⟨j, hj, hj1⟩ := h
      subst hj1
      obtain ⟨b, hb, hpb⟩ := ih j hj
      exact ⟨b, by simpa using hb, hpb⟩

theorem findIndex_nil {α : Type} (p : α → Bool) : findIndex p [] = none := rfl

theorem findIndex_cons {α : Type} (p : α → Bool) (a : α) (rest : List α) :
    findIndex p (a :: rest) =
      if p a then some 0 else (findIndex p rest).map (· + 1) := rfl

theorem findIndex_append_none {α : Type} (p : α → Bool) (l : List α) (x : α) :
    findIndex p l = none →
    findIndex p (l ++ [x]) = if p x then some l.length else none := by
  induction l with
  | nil =>
    intro _
    simp [findIndex_cons, findIndex_nil]
  | cons a rest ih =>
    intro h
    rw [findIndex_cons] at h
    by_cases hp : p a
    · rw [if_pos hp] at h
      exact Option.noConfusion h
    · rw [if_neg hp, Option.map_eq_none'] at h
      rw [List.cons_append, findIndex_cons, if_neg hp, ih h]
      by_cases hx : p x
      · rw [if_pos hx, if_pos hx]
        simp
      · rw [if_neg hx, if_neg hx]
        simp

theorem getTextureEntryIndex_none_iff (sky : DistantSky) (fn : String) :
    getTextureEntryIndex sky fn = none ↔ fn ∉ texNames sky := by
  unfold getTextureEntryIndex texNames
  rw [findIndex_eq_none_iff]
  simp only [beq_eq_false_iff_ne, List.mem_map]
  constructor
  · rintro h ⟨e, he, hfe⟩
    exact h e he hfe
  · intro h e he hfe
    exact h ⟨e, he, hfe⟩

theorem getTextureSetEntryIndex_none_iff (sky : DistantSky) (fn : String) :
    getTextureSetEntryIndex sky fn = none ↔ fn ∉ setNames sky := by
  unfold getTextureSetEntryIndex setNames
  rw [findIndex_eq_none_iff]
  simp only [beq_eq_false_iff_ne, List.mem_map]
  constructor
  · rintro h ⟨e, he, hfe⟩
    exact h e he hfe
  · intro h e he hfe
    exact h ⟨e, he, hfe⟩

theorem getOrCreate_entry (tm : TextureManager) (sky : DistantSky) (fn : String) :
    ∃ e, ((getOrCreateTextureIndex tm sky fn).1.textures)[(getOrCreateTextureIndex tm sky fn).2.1]? =
      some e ∧ e.filename = fn := by
  unfold getOrCreateTextureIndex
  cases h : getTextureEntryIndex sky fn with
  | some i =>
    obtain ⟨e, he, hpe⟩ := findIndex_eq_some _ sky.textures i h
    exact ⟨e, he, by simpa using hpe⟩
  | none =>
    exact ⟨⟨fn, tm.make8BitSurface fn⟩, by simp [List.getElem?_concat_length], rfl⟩

theorem getOrCreate_textures (tm : TextureManager) (sky : DistantSky) (fn : String) :
    ∃ t, (getOrCreateTextureIndex tm sky fn).1.textures = sky.textures ++ t := by
  unfold getOrCreateTextureIndex
  cases h : getTextureEntryIndex sky fn with
  | some i => exact ⟨[], by simp⟩
  | none => exact ⟨[⟨fn, tm.make8BitSurface fn⟩], rfl⟩

theorem getOrCreate_idem : getOrCreateIdempotent := by
  intro tm sky fn
  cases h : getTextureEntryIndex sky fn with
  | some i =>
    simp only [getOrCreateTextureIndex, h]
  | none =>
    have h2 : getTextureEntryIndex
        { sky with textures := sky.textures ++ [⟨fn, tm.make8BitSurface fn⟩] } fn =
        some sky.textures.length := by
      unfold getTextureEntryIndex at h ⊢
      rw [findIndex_append_none _ _ _ h]
      simp
    simp only [getOrCreateTextureIndex, h, h2]

theorem getOrCreate_inj : getOrCreateInjective := by
  intro tm tm2 sky fn1 fn2 hne heq
  obtain ⟨e1, he1, hf1⟩ := getOrCreate_entry tm sky fn1
  obtain ⟨e2, he2, hf2⟩ := getOrCreate_entry tm2 (getOrCreateTextureIndex tm sky fn1).1 fn2
  obtain ⟨t, ht⟩ := getOrCreate_textures tm2 (getOrCreateTextureIndex tm sky fn1).1 fn2
  have hlt : (getOrCreateTextureIndex tm sky fn1).2.1 <
      (getOrCreateTextureIndex tm sky fn1).1.textures.length :=
    (List.getElem?_eq_some.mp he1).1
  rw [heq, ht, List.getElem?_append_left hlt, he1] at he2
  injection he2 with he2
  subst he2
  exact hne (hf1 ▸ hf2 ▸ rfl)

theorem getOrCreate_append_only : storeAppendOnly := by
  intro tm sky fn
  exact getOrCreate_textures tm sky fn

theorem loadTexture_eq_found (tm : TextureManager) (st : GenState) (fn : String)
    (i : Nat) (h : getTextureEntryIndex st.sky fn = some i) :
    loadTexture tm st fn = (st, i) := by
  unfold loadTexture getOrCreateTextureIndex
  simp only [h]
  simp

theorem loadTexture_eq_missing (tm : TextureManager) (st : GenState) (fn : String)
    (h : getTextureEntryIndex st.sky fn = none) :
    loadTexture tm st fn =
      ({ st with
          sky := { st.sky with
            textures := st.sky.textures ++ [⟨fn, tm.make8BitSurface fn⟩] },
          texLoads := st.texLoads ++ [fn] },
        st.sky.textures.length) := by
  unfold loadTexture getOrCreateTextureIndex
  simp only [h]
  simp

theorem loadTexture_untouched (tm : TextureManager) (st : GenState) (fn : String) :
    (loadTexture tm st fn).1.sky.textureSets = st.sky.textureSets ∧
    (loadTexture tm st fn).1.sky.landObjects = st.sky.landObjects ∧
    (loadTexture tm st fn).1.sky.animLandObjects = st.sky.animLandObjects ∧
    (loadTexture tm st fn).1.sky.airObjects = st.sky.airObjects ∧
    (loadTexture tm st fn).1.sky.moonObjects = st.sky.moonObjects ∧
    (loadTexture tm st fn).1.sky.starObjects = st.sky.starObjects ∧
    (loadTexture tm st fn).1.sky.sunEntryIndex = st.sky.sunEntryIndex ∧
    (loadTexture tm st fn).1.rngSeed = st.rngSeed ∧
    (loadTexture tm st fn).1.texSetLoads = st.texSetLoads ∧
    (loadTexture tm st fn).1.reseeds = st.reseeds ∧
    (loadTexture tm st fn).1.stars = st.stars := by
  cases h : getTextureEntryIndex st.sky fn with
  | some i => rw [loadTexture_eq_found tm st fn i h]; simp
  | none => rw [loadTexture_eq_missing tm st fn h]; simp

theorem loadTexture_texNames (tm : TextureManager) (st : GenState) (fn : String) :
    ∃ t, texNames (loadTexture tm st fn).1.sky = texNames st.sky ++ t := by
  unfold texNames loadTexture
  obtain ⟨t, ht⟩ := getOrCreate_textures tm st.sky fn
  exact ⟨t.map TextureEntry.filename, by simp [ht]⟩

theorem loadTexture_texInv (tm : TextureManager) (st : GenState) (fn : String)
    (h : TexInv st) : TexInv (loadTexture tm st fn).1 := by
  obtain ⟨hnodup, hnames, hsub⟩ := h
  cases hl : getTextureEntryIndex st.sky fn with
  | some i =>
    rw [loadTexture_eq_found tm st fn i hl]
    exact ⟨hnodup, hnames, hsub⟩
  | none =>
    have hnotin : fn ∉ texNames st.sky := (getTextureEntryIndex_none_iff st.sky fn).mp hl
    rw [loadTexture_eq_missing tm st fn hl]
    have hnew : texNames { st.sky with
        textures := st.sky.textures ++ [⟨fn, tm.make8BitSurface fn⟩] } =
        texNames st.sky ++ [fn] := by
      unfold texNames
      simp
    refine ⟨?_, ?_, ?_⟩
    · show (st.texLoads ++ [fn]).Nodup
      rw [List.nodup_append]
      refine ⟨hnodup, by simp, ?_⟩
      intro f hf hf2
      simp at hf2
      subst hf2
      exact hnotin (hsub f hf)
    · show (texNames { st.sky with
        textures := st.sky.textures ++ [⟨fn, tm.make8BitSurface fn⟩] }).Nodup
      rw [hnew, List.nodup_append]
      refine ⟨hnames, by simp, ?_⟩
      intro f hf hf2
      simp at hf2
      subst hf2
      exact hnotin hf
    · intro f hf
      show f ∈ texNames { st.sky with
        textures := st.sky.textures ++ [⟨fn, tm.make8BitSurface fn⟩] }
      rw [hnew]
      rcases List.mem_append.mp hf with hf | hf
      · exact List.mem_append.mpr (Or.inl (hsub f hf))
      · simp at hf
        subst hf
        simp

theorem loadTexture_setInv (tm : TextureManager) (st : GenState) (fn : String)
    (h : SetInv st) : SetInv (loadTexture tm st fn).1 := by
  obtain ⟨h1, h2, h3, h4, h5, h6, h7, h8, h9, h10, h11⟩ := loadTexture_untouched tm st fn
  obtain ⟨g1, g2, g3⟩ := h
  refine ⟨h9 ▸ g1, ?_, ?_⟩
  · unfold setNames
    rw [h1]
    exact g2
  · intro f hf
    rw [h9] at hf
    unfold setNames
    rw [h1]
    exact g3 f hf

theorem TexInv_congr {st1 st2 : GenState} (hl : st2.texLoads = st1.texLoads)
    (ht : st2.sky.textures = st1.sky.textures) (h : TexInv st1) : TexInv st2 := by
  unfold TexInv texNames at h ⊢
  rw [hl, ht]
  exact h

theorem SetInv_congr {st1 st2 : GenState} (hl : st2.texSetLoads = st1.texSetLoads)
    (ht : st2.sky.textureSets = st1.sky.textureSets) (h : SetInv st1) : SetInv st2 := by
  unfold SetInv setNames at h ⊢
  rw [hl, ht]
  exact h

/-! ## Lemmas about static object placement -/

theorem addStatic_false_eq (A : InitArgs) (fn : String) (u y : Nat) (st : GenState) :
    addStatic A false fn u y st =
      { (loadTexture A.tm st fn).1 with sky := { (loadTexture A.tm st fn).1.sky with
          landObjects := (loadTexture A.tm st fn).1.sky.landObjects ++
            [⟨(loadTexture A.tm st fn).2, arenaAngleToRadians u⟩] } } := rfl

theorem addStatic_true_eq (A : InitArgs) (fn : String) (u y : Nat) (st : GenState) :
    addStatic A true fn u y st =
      { (loadTexture A.tm st fn).1 with sky := { (loadTexture A.tm st fn).1.sky with
          airObjects := (loadTexture A.tm st fn).1.sky.airObjects ++
            [⟨(loadTexture A.tm st fn).2, arenaAngleToRadians u, (y : ℚ) / 64⟩] } } := rfl

theorem addStatic_false (A : InitArgs) (fn : String) (u y : Nat) (st : GenState) :
    (addStatic A false fn u y st).sky.landObjects =
      st.sky.landObjects ++ [⟨(loadTexture A.tm st fn).2, arenaAngleToRadians u⟩] ∧
    (addStatic A false fn u y st).sky.airObjects = st.sky.airObjects ∧
    (addStatic A false fn u y st).sky.textures = (loadTexture A.tm st fn).1.sky.textures ∧
    (addStatic A false fn u y st).texLoads = (loadTexture A.tm st fn).1.texLoads := by
  obtain ⟨h1, h2, h3, h4, h5, h6, h7, h8, h9, h10, h11⟩ := loadTexture_untouched A.tm st fn
  rw [addStatic_false_eq]
  exact ⟨by rw [h2], by rw [h4], rfl, rfl⟩

theorem addStatic_true (A : InitArgs) (fn : String) (u y : Nat) (st : GenState) :
    (addStatic A true fn u y st).sky.airObjects =
      st.sky.airObjects ++
        [⟨(loadTexture A.tm st fn).2, arenaAngleToRadians u, (y : ℚ) / 64⟩] ∧
    (addStatic A true fn u y st).sky.landObjects = st.sky.landObjects ∧
    (addStatic A true fn u y st).sky.textures = (loadTexture A.tm st fn).1.sky.textures ∧
    (addStatic A true fn u y st).texLoads = (loadTexture A.tm st fn).1.texLoads := by
  obtain ⟨h1, h2, h3, h4, h5, h6, h7, h8, h9, h10, h11⟩ := loadTexture_untouched A.tm st fn
  rw [addStatic_true_eq]
  exact ⟨by rw [h4], by rw [h2], rfl, rfl⟩

theorem addStatic_untouched (A : InitArgs) (rh : Bool) (fn : String) (u y : Nat)
    (st : GenState) :
    (addStatic A rh fn u y st).sky.textureSets = st.sky.textureSets ∧
    (addStatic A rh fn u y st).sky.animLandObjects = st.sky.animLandObjects ∧
    (addStatic A rh fn u y st).sky.moonObjects = st.sky.moonObjects ∧
    (addStatic A rh fn u y st).sky.starObjects = st.sky.starObjects ∧
    (addStatic A rh fn u y st).sky.sunEntryIndex = st.sky.sunEntryIndex ∧
    (addStatic A rh fn u y st).texSetLoads = st.texSetLoads ∧
    (addStatic A rh fn u y st).reseeds = st.reseeds ∧
    (addStatic A rh fn u y st).stars = st.stars := by
  obtain ⟨h1, h2, h3, h4, h5, h6, h7, h8, h9, h10, h11⟩ := loadTexture_untouched A.tm st fn
  cases rh
  · rw [addStatic_false_eq]
    exact ⟨h1, h3, h5, h6, h7, h9, h10, h11⟩
  · rw [addStatic_true_eq]
    exact ⟨h1, h3, h5, h6, h7, h9, h10, h11⟩

theorem addStatic_texInv (A : InitArgs) (rh : Bool) (fn : String) (u y : Nat)
    (st : GenState) (h : TexInv st) : TexInv (addStatic A rh fn u y st) := by
  have hload := loadTexture_texInv A.tm st fn h
  cases rh
  · rw [addStatic_false_eq]
    exact TexInv_congr rfl rfl hload
  · rw [addStatic_true_eq]
    exact TexInv_congr rfl rfl hload

theorem addStatic_setInv (A : InitArgs) (rh : Bool) (fn : String) (u y : Nat)
    (st : GenState) (h : SetInv st) : SetInv (addStatic A rh fn u y st) := by
  have hload := loadTexture_setInv A.tm st fn h
  cases rh
  · rw [addStatic_false_eq]
    exact SetInv_congr rfl rfl hload
  · rw [addStatic_true_eq]
    exact SetInv_congr rfl rfl hload

theorem placeOne_shape (A : InitArgs) (base : String) (pos vr md : Nat)
    (rh : Bool) (st st' : GenState)
    (h : placeOneStatic A base pos vr md rh st = some st') :
    ∃ fn u y s3, u < 512 ∧ st' = addStatic A rh fn u y { st with rngSeed := s3 } := by
  simp only [placeOneStatic] at h
  split at h
  all_goals try split at h
  all_goals try split at h
  all_goals try split at h
  all_goals first
    | exact Option.noConfusion h
    | (injection h with h
       exact ⟨_, _, _, _, Nat.mod_lt _ (by norm_num), h.symm⟩)

theorem placeOne_untouched (A : InitArgs) (base : String) (pos vr md : Nat)
    (rh : Bool) (st st' : GenState)
    (h : placeOneStatic A base pos vr md rh st = some st') :
    PlaceUntouched st st' := by
  obtain ⟨fn, u, y, s3, hu, rfl⟩ := placeOne_shape A base pos vr md rh st st' h
  exact addStatic_untouched A rh fn u y { st with rngSeed := s3 }

theorem placeOne_texInv (A : InitArgs) (base : String) (pos vr md : Nat)
    (rh : Bool) (st st' : GenState)
    (h : placeOneStatic A base pos vr md rh st = some st') (hinv : TexInv st) :
    TexInv st' := by
  obtain ⟨fn, u, y, s3, hu, rfl⟩ := placeOne_shape A base pos vr md rh st st' h
  exact addStatic_texInv A rh fn u y _ (TexInv_congr rfl rfl hinv)

theorem placeOne_setInv (A : InitArgs) (base : String) (pos vr md : Nat)
    (rh : Bool) (st st' : GenState)
    (h : placeOneStatic A base pos vr md rh st = some st') (hinv : SetInv st) :
    SetInv st' := by
  obtain ⟨fn, u, y, s3, hu, rfl⟩ := placeOne_shape A base pos vr md rh st st' h
  exact addStatic_setInv A rh fn u y _ (SetInv_congr rfl rfl hinv)

theorem placeOne_angles (A : InitArgs) (base : String) (pos vr md : Nat)
    (rh : Bool) (st st' : GenState)
    (h : placeOneStatic A base pos vr md rh st = some st')
    (hang : (∀ o ∈ st.sky.landObjects, AngleOK o.angleRadians) ∧
      (∀ o ∈ st.sky.airObjects, AngleOK o.angleRadians)) :
    (∀ o ∈ st'.sky.landObjects, AngleOK o.angleRadians) ∧
    (∀ o ∈ st'.sky.airObjects, AngleOK o.angleRadians) := by
  obtain ⟨hL, hA⟩ := hang
  obtain ⟨fn, u, y, s3, hu, rfl⟩ := placeOne_shape A base pos vr md rh st st' h
  cases rh
  · obtain ⟨hl, ha, _, _⟩ := addStatic_false A fn u y { st with rngSeed := s3 }
    constructor
    · intro o ho
      rw [hl] at ho
      rcases List.mem_append.mp ho with ho | ho
      · exact hL o ho
      · simp at ho
        subst ho
        exact ⟨u, hu, rfl⟩
    · intro o ho
      rw [ha] at ho
      exact hA o ho
  · obtain ⟨ha, hl, _, _⟩ := addStatic_true A fn u y { st with rngSeed := s3 }
    constructor
    · intro o ho
      rw [hl] at ho
      exact hL o ho
    · intro o ho
      rw [ha] at ho
      rcases List.mem_append.mp ho with ho | ho
      · exact hA o ho
      · simp at ho
        subst ho
        exact ⟨u, hu, rfl⟩

theorem placeOne_false_counts (A : InitArgs) (base : String) (pos vr md : Nat)
    (st st' : GenState)
    (h : placeOneStatic A base pos vr md false st = some st') :
    st'.sky.landObjects.length = st.sky.landObjects.length + 1 ∧
    st'.sky.airObjects = st.sky.airObjects := by
  obtain ⟨fn, u, y, s3, hu, rfl⟩ := placeOne_shape A base pos vr md false st st' h
  obtain ⟨hl, ha, _, _⟩ := addStatic_false A fn u y { st with rngSeed := s3 }
  exact ⟨by rw [hl]; simp, ha⟩

theorem placeOne_true_counts (A : InitArgs) (base : String) (pos vr md : Nat)
    (st st' : GenState)
    (h : placeOneStatic A base pos vr md true st = some st') :
    st'.sky.airObjects.length = st.sky.airObjects.length + 1 ∧
    st'.sky.landObjects = st.sky.landObjects := by
  obtain ⟨fn, u, y, s3, hu, rfl⟩ := placeOne_shape A base pos vr md true st st' h
  obtain ⟨ha, hl, _, _⟩ := addStatic_true A fn u y { st with rngSeed := s3 }
  exact ⟨by rw [ha]; simp, hl⟩

theorem place_preserve (A : InitArgs) (base : String) (pos vr md : Nat)
    (rh : Bool) (P : GenState → Prop)
    (hstep : ∀ st st', placeOneStatic A base pos vr md rh st = some st' →
      P st → P st') :
    ∀ n st st', placeStaticObjects A base pos vr md rh n st = some st' →
      P st → P st' := by
  intro n
  induction n with
  | zero =>
    intro st st' h hP
    unfold placeStaticObjects at h
    injection h with h
    exact h ▸ hP
  | succ n ih =>
    intro st st' h hP
    unfold placeStaticObjects at h
    cases h1 : placeOneStatic A base pos vr md rh st with
    | none => rw [h1] at h; exact Option.noConfusion h
    | some st1 =>
      rw [h1] at h
      exact ih st1 st' h (hstep st st1 h1 hP)

theorem place_untouched (A : InitArgs) (base : String) (pos vr md : Nat)
    (rh : Bool) (n : Nat) (st st' : GenState)
    (h : placeStaticObjects A base pos vr md rh n st = some st') :
    PlaceUntouched st st' := by
  refine place_preserve A base pos vr md rh (PlaceUntouched st) ?_ n st st' h
    ⟨rfl, rfl, rfl, rfl, rfl, rfl, rfl, rfl⟩
  intro s1 s2 hone hP
  obtain ⟨p1, p2, p3, p4, p5, p6, p7, p8⟩ := placeOne_untouched A base pos vr md rh s1 s2 hone
  obtain ⟨q1, q2, q3, q4, q5, q6, q7, q8⟩ := hP
  exact ⟨p1.trans q1, p2.trans q2, p3.trans q3, p4.trans q4, p5.trans q5,
    p6.trans q6, p7.trans q7, p8.trans q8⟩

theorem place_false_counts (A : InitArgs) (base : String) (pos vr md : Nat) :
    ∀ n st st', placeStaticObjects A base pos vr md false n st = some st' →
      st'.sky.landObjects.length = st.sky.landObjects.length + n ∧
      st'.sky.airObjects = st.sky.airObjects := by
  intro n
  induction n with
  | zero =>
    intro st st' h
    unfold placeStaticObjects at h
    injection h with h
    subst h
    exact ⟨rfl, rfl⟩
  | succ n ih =>
    intro st st' h
    unfold placeStaticObjects at h
    cases h1 : placeOneStatic A base pos vr md false st with
    | none => rw [h1] at h; exact Option.noConfusion h
    | some st1 =>
      rw [h1] at h
      obtain ⟨c1, c2⟩ := placeOne_false_counts A base pos vr md st st1 h1
      obtain ⟨d1, d2⟩ := ih st1 st' h
      exact ⟨by omega, d2.trans c2⟩

theorem place_true_counts (A : InitArgs) (base : String) (pos vr md : Nat) :
    ∀ n st st', placeStaticObjects A base pos vr md true n st = some st' →
      st'.sky.airObjects.length = st.sky.airObjects.length + n ∧
      st'.sky.landObjects = st.sky.landObjects := by
  intro n
  induction n with
  | zero =>
    intro st st' h
    unfold placeStaticObjects at h
    injection h with h
    subst h
    exact ⟨rfl, rfl⟩
  | succ n ih =>
    intro st st' h
    unfold placeStaticObjects at h
    cases h1 : placeOneStatic A base pos vr md true st with
    | none => rw [h1] at h; exact Option.noConfusion h
    | some st1 =>
      rw [h1] at h
      obtain ⟨c1, c2⟩ := placeOne_true_counts A base pos vr md st st1 h1
      obtain ⟨d1, d2⟩ := ih st1 st' h
      exact ⟨by omega, d2.trans c2⟩

theorem place_texInv (A : InitArgs) (base : String) (pos vr md : Nat)
    (rh : Bool) (n : Nat) (st st' : GenState)
    (h : placeStaticObjects A base pos vr md rh n st = some st')
    (hinv : TexInv st) : TexInv st' :=
  place_preserve A base pos vr md rh TexInv
    (fun s1 s2 hone => placeOne_texInv A base pos vr md rh s1 s2 hone)
    n st st' h hinv

theorem place_setInv (A : InitArgs) (base : String) (pos vr md : Nat)
    (rh : Bool) (n : Nat) (st st' : GenState)
    (h : placeStaticObjects A base pos vr md rh n st = some st')
    (hinv : SetInv st) : SetInv st' :=
  place_preserve A base pos vr md rh SetInv
    (fun s1 s2 hone => placeOne_setInv A base pos vr md rh s1 s2 hone)
    n st st' h hinv

theorem place_angles (A : InitArgs) (base : String) (pos vr md : Nat)
    (rh : Bool) (n : Nat) (st st' : GenState)
    (h : placeStaticObjects A base pos vr md rh n st = some st')
    (hang : (∀ o ∈ st.sky.landObjects, AngleOK o.angleRadians) ∧
      (∀ o ∈ st.sky.airObjects, AngleOK o.angleRadians)) :
    (∀ o ∈ st'.sky.landObjects, AngleOK o.angleRadians) ∧
    (∀ o ∈ st'.sky.airObjects, AngleOK o.angleRadians) :=
  place_preserve A base pos vr md rh
    (fun s => (∀ o ∈ s.sky.landObjects, AngleOK o.angleRadians) ∧
      (∀ o ∈ s.sky.airObjects, AngleOK o.angleRadians))
    (fun s1 s2 hone hP => placeOne_angles A base pos vr md rh s1 s2 hone hP)
    n st st' h hang

/-! ## Lemmas about the phases of `init` -/

theorem texAppend_inv (st : GenState) (fn : String) (entry : TextureEntry)
    (hfe : entry.filename = fn) (hl : getTextureEntryIndex st.sky fn = none)
    (h : TexInv st) :
    TexInv { st with
      sky := { st.sky with textures := st.sky.textures ++ [entry] },
      texLoads := st.texLoads ++ [fn] } := by
  obtain ⟨hnodup, hnames, hsub⟩ := h
  have hnotin : fn ∉ texNames st.sky := (getTextureEntryIndex_none_iff st.sky fn).mp hl
  have hnew : texNames { st.sky with textures := st.sky.textures ++ [entry] } =
      texNames st.sky ++ [fn] := by
    unfold texNames
    simp [hfe]
  refine ⟨?_, ?_, ?_⟩
  · show (st.texLoads ++ [fn]).Nodup
    rw [List.nodup_append]
    refine ⟨hnodup, by simp, ?_⟩
    intro f hf hf2
    simp at hf2
    subst hf2
    exact hnotin (hsub f hf)
  · show (texNames { st.sky with textures := st.sky.textures ++ [entry] }).Nodup
    rw [hnew, List.nodup_append]
    refine ⟨hnames, by simp, ?_⟩
    intro f hf hf2
    simp at hf2
    subst hf2
    exact hnotin hf
  · intro f hf
    show f ∈ texNames { st.sky with textures := st.sky.textures ++ [entry] }
    rw [hnew]
    rcases List.mem_append.mp hf with hf | hf
    · exact List.mem_append.mpr (Or.inl (hsub f hf))
    · simp at hf
      subst hf
      simp

theorem setAppend_inv (st : GenState) (fn : String) (entry : TextureSetEntry)
    (hfe : entry.filename = fn) (hl : getTextureSetEntryIndex st.sky fn = none)
    (h : SetInv st) :
    SetInv { st with
      sky := { st.sky with textureSets := st.sky.textureSets ++ [entry] },
      texSetLoads := st.texSetLoads ++ [fn] } := by
  obtain ⟨hnodup, hnames, hsub⟩ := h
  have hnotin : fn ∉ setNames st.sky := (getTextureSetEntryIndex_none_iff st.sky fn).mp hl
  have hnew : setNames { st.sky with textureSets := st.sky.textureSets ++ [entry] } =
      setNames st.sky ++ [fn] := by
    unfold setNames
    simp [hfe]
  refine ⟨?_, ?_, ?_⟩
  · show (st.texSetLoads ++ [fn]).Nodup
    rw [List.nodup_append]
    refine ⟨hnodup, by simp, ?_⟩
    intro f hf hf2
    simp at hf2
    subst hf2
    exact hnotin (hsub f hf)
  · show (setNames { st.sky with textureSets := st.sky.textureSets ++ [entry] }).Nodup
    rw [hnew, List.nodup_append]
    refine ⟨hnames, by simp, ?_⟩
    intro f hf hf2
    simp at hf2
    subst hf2
    exact hnotin hf
  · intro f hf
    show f ∈ setNames { st.sky with textureSets := st.sky.textureSets ++ [entry] }
    rw [hnew]
    rcases List.mem_append.mp hf with hf | hf
    · exact List.mem_append.mpr (Or.inl (hsub f hf))
    · simp at hf
      subst hf
      simp

theorem mountainPhase_shape (A : InitArgs) (st' : GenState)
    (h : mountainPhase A = some st') :
    ∃ traits base,
      (MountainTraits.find?
        (fun pr => pr.1 == A.locationDef.cityDef.climateType)).map Prod.snd =
        some traits ∧
      A.exeData.distantMountainFilenames[traits.filenameIndex]? = some base ∧
      placeStaticObjects A base traits.position traits.variation traits.maxDigits
        false ((rnext A.impl (A.locationDef.cityDef.distantSkySeed % U32)).1 % 4 + 2)
        ⟨emptySky, (rnext A.impl (A.locationDef.cityDef.distantSkySeed % U32)).2,
          [], [], [], []⟩ = some st' := by
  unfold mountainPhase at h
  by_cases hc : A.locationDef.locType = LocationType.City
  · rw [if_pos hc] at h
    cases hf : (MountainTraits.find?
        (fun pr => pr.1 == A.locationDef.cityDef.climateType)).map Prod.snd with
    | none => rw [hf] at h; exact Option.noConfusion h
    | some traits =>
      simp only [hf] at h
      cases hb : A.exeData.distantMountainFilenames[traits.filenameIndex]? with
      | none => rw [hb] at h; exact Option.noConfusion h
      | some base =>
        simp only [hb] at h
        exact ⟨traits, base, rfl, hb, h⟩
  · rw [if_neg hc] at h
    exact Option.noConfusion h

theorem emptyState_texInv :
    TexInv ⟨emptySky, 0, [], [], [], []⟩ ∧ SetInv ⟨emptySky, 0, [], [], [], []⟩ := by
  constructor <;> exact ⟨List.nodup_nil, List.nodup_nil, by intro f hf; simp at hf⟩

theorem mountainPhase_props (A : InitArgs) (st' : GenState)
    (h : mountainPhase A = some st') :
    st'.sky.landObjects.length =
      (rnext A.impl (A.locationDef.cityDef.distantSkySeed % U32)).1 % 4 + 2 ∧
    st'.sky.airObjects = [] ∧
    st'.sky.textureSets = [] ∧
    st'.sky.animLandObjects = [] ∧
    st'.sky.moonObjects = [] ∧
    st'.sky.starObjects = [] ∧
    st'.sky.sunEntryIndex = none ∧
    st'.texSetLoads = [] ∧
    st'.reseeds = [] ∧
    st'.stars = [] ∧
    TexInv st' ∧ SetInv st' ∧
    (∀ o ∈ st'.sky.landObjects, AngleOK o.angleRadians) ∧
    (∀ o ∈ st'.sky.airObjects, AngleOK o.angleRadians) := by
  obtain ⟨traits, base, hf, hb, hp⟩ := mountainPhase_shape A st' h
  have hstart : TexInv (⟨emptySky,
      (rnext A.impl (A.locationDef.cityDef.distantSkySeed % U32)).2,
      [], [], [], []⟩ : GenState) ∧ SetInv ⟨emptySky,
      (rnext A.impl (A.locationDef.cityDef.distantSkySeed % U32)).2,
      [], [], [], []⟩ := by
    constructor <;> exact ⟨List.nodup_nil, List.nodup_nil, by intro f hf2; simp at hf2⟩
  obtain ⟨u1, u2, u3, u4, u5, u6, u7, u8⟩ := place_untouched A base traits.position
    traits.variation traits.maxDigits false _ _ _ hp
  obtain ⟨c1, c2⟩ := place_false_counts A base traits.position traits.variation
    traits.maxDigits _ _ _ hp
  have hti := place_texInv A base traits.position traits.variation traits.maxDigits
    false _ _ _ hp hstart.1
  have hsi := place_setInv A base traits.position traits.variation traits.maxDigits
    false _ _ _ hp hstart.2
  have hang := place_angles A base traits.position traits.variation traits.maxDigits
    false _ _ _ hp (by constructor <;> (intro o ho; simp [emptySky] at ho))
  exact ⟨by simpa [emptySky] using c1, c2, u1, u2, u3, u4, u5, u6, u7, u8, hti, hsi,
    hang.1, hang.2⟩

theorem cloudPhase_clear_shape (A : InitArgs) (st st' : GenState)
    (hw : A.weatherType = WeatherType.Clear) (h : cloudPhase A st = some st') :
    placeStaticObjects A A.exeData.cloudFilename 5 17 2 true 7
      ({ st with
          rngSeed := (st.rngSeed + A.currentDay % 32) % U32,
          reseeds := st.reseeds ++ [(st.rngSeed + A.currentDay % 32) % U32] }) =
      some st' := by
  unfold cloudPhase at h
  rw [if_pos hw] at h
  exact h

theorem cloudPhase_nonclear (A : InitArgs) (st : GenState)
    (hw : ¬A.weatherType = WeatherType.Clear) : cloudPhase A st = some st := by
  unfold cloudPhase
  rw [if_neg hw]

theorem cloudPhase_props (A : InitArgs) (st st' : GenState)
    (hw : A.weatherType = WeatherType.Clear) (h : cloudPhase A st = some st') :
    st'.sky.airObjects.length = st.sky.airObjects.length + 7 ∧
    st'.sky.landObjects = st.sky.landObjects ∧
    st'.sky.textureSets = st.sky.textureSets ∧
    st'.sky.animLandObjects = st.sky.animLandObjects ∧
    st'.sky.moonObjects = st.sky.moonObjects ∧
    st'.sky.starObjects = st.sky.starObjects ∧
    st'.sky.sunEntryIndex = st.sky.sunEntryIndex ∧
    st'.texSetLoads = st.texSetLoads ∧
    st'.reseeds = st.reseeds ++ [(st.rngSeed + A.currentDay % 32) % U32] ∧
    st'.stars = st.stars ∧
    (TexInv st → TexInv st') ∧ (SetInv st → SetInv st') ∧
    ((∀ o ∈ st.sky.landObjects, AngleOK o.angleRadians) →
      (∀ o ∈ st.sky.airObjects, AngleOK o.angleRadians) →
      (∀ o ∈ st'.sky.landObjects, AngleOK o.angleRadians) ∧
      (∀ o ∈ st'.sky.airObjects, AngleOK o.angleRadians)) := by
  have hp := cloudPhase_clear_shape A st st' hw h
  obtain ⟨u1, u2, u3, u4, u5, u6, u7, u8⟩ :=
    place_untouched A A.exeData.cloudFilename 5 17 2 true 7 _ _ hp
  obtain ⟨c1, c2⟩ := place_true_counts A A.exeData.cloudFilename 5 17 2 7 _ _ hp
  refine ⟨c1, c2, u1, u2, u3, u4, u5, u6, u7, u8, ?_, ?_, ?_⟩
  · intro hti
    exact place_texInv A A.exeData.cloudFilename 5 17 2 true 7 _ _ hp
      (TexInv_congr rfl rfl hti)
  · intro hsi
    exact place_setInv A A.exeData.cloudFilename 5 17 2 true 7 _ _ hp
      (SetInv_congr rfl rfl hsi)
  · intro hL hA
    exact place_angles A A.exeData.cloudFilename 5 17 2 true 7 _ _ hp ⟨hL, hA⟩

theorem findIndex_bound {α : Type} (p : α → Bool) (l : List α) (i : Nat)
    (h : findIndex p l = some i) : i < l.length := by
  obtain ⟨a, ha, _⟩ := findIndex_eq_some p l i h
  exact (List.getElem?_eq_some.mp ha).1

theorem animPhase_props (A : InitArgs) (st st' : GenState)
    (h : animPhase A st = some st') :
    st'.sky.landObjects = st.sky.landObjects ∧
    st'.sky.airObjects = st.sky.airObjects ∧
    st'.sky.moonObjects = st.sky.moonObjects ∧
    st'.sky.starObjects = st.sky.starObjects ∧
    st'.sky.sunEntryIndex = st.sky.sunEntryIndex ∧
    st'.sky.textures = st.sky.textures ∧
    st'.texLoads = st.texLoads ∧
    st'.rngSeed = st.rngSeed ∧
    st'.reseeds = st.reseeds ∧
    st'.stars = st.stars ∧
    (SetInv st → SetInv st') ∧
    (∃ t, st'.sky.textureSets = st.sky.textureSets ++ t) ∧
    (∀ o ∈ st'.sky.animLandObjects,
      o ∈ st.sky.animLandObjects ∨
        (o.targetFrameTime = A.defaultFrameTime ∧ o.currentFrameTime = 0 ∧
          o.setEntryIndex < st'.sky.textureSets.length)) := by
  unfold animPhase at h
  cases hpv : A.provinceDef.animatedDistantLand with
  | false =>
    rw [hpv] at h
    simp only [Bool.false_eq_true, if_false] at h
    injection h with h
    subst h
    refine ⟨rfl, rfl, rfl, rfl, rfl, rfl, rfl, rfl, rfl, rfl, fun hs => hs,
      ⟨[], by simp⟩, ?_⟩
    intro o ho
    exact Or.inl ho
  | true =>
    rw [hpv] at h
    simp only [if_true] at h
    split at h
    · exact Option.noConfusion h
    · rename_i fn0 hfn
      split at h
      · rename_i i hfound
        injection h with h
        subst h
        refine ⟨rfl, rfl, rfl, rfl, rfl, rfl, rfl, rfl, rfl, rfl,
          fun hs => SetInv_congr rfl rfl hs, ⟨[], by simp⟩, ?_⟩
        intro o ho
        rcases List.mem_append.mp ho with ho | ho
        · exact Or.inl ho
        · simp at ho
          subst ho
          exact Or.inr ⟨rfl, rfl, findIndex_bound _ _ _ hfound⟩
      · rename_i hmiss
        injection h with h
        subst h
        have hef : (if containsSeq ".DFA".data (toUppercase fn0).data then
            (⟨toUppercase fn0, A.tm.make8BitSurfaces (toUppercase fn0)⟩ : TextureSetEntry)
          else ⟨toUppercase fn0, [A.tm.make8BitSurface (toUppercase fn0)]⟩).filename =
            toUppercase fn0 := by
          split <;> rfl
        refine ⟨rfl, rfl, rfl, rfl, rfl, rfl, rfl, rfl, rfl, rfl,
          fun hs => ?_, ⟨_, rfl⟩, ?_⟩
        · exact SetInv_congr rfl rfl (setAppend_inv st (toUppercase fn0) _ hef hmiss hs)
        · intro o ho
          rcases List.mem_append.mp ho with ho | ho
          · exact Or.inl ho
          · simp at ho
            subst ho
            refine Or.inr ⟨rfl, rfl, ?_⟩
            simp

theorem ConvUntouched_refl (st : GenState) : ConvUntouched st st :=
  ⟨rfl, rfl, rfl, rfl, rfl, rfl, rfl, rfl, rfl⟩

theorem ConvUntouched_trans {a b c : GenState} (h1 : ConvUntouched a b)
    (h2 : ConvUntouched b c) : ConvUntouched a c := by
  obtain ⟨p1, p2, p3, p4, p5, p6, p7, p8, p9⟩ := h1
  obtain ⟨q1, q2, q3, q4, q5, q6, q7, q8, q9⟩ := h2
  exact ⟨q1.trans p1, q2.trans p2, q3.trans p3, q4.trans p4, q5.trans p5,
    q6.trans p6, q7.trans p7, q8.trans p8, q9.trans p9⟩

theorem loadTexture_convUntouched (tm : TextureManager) (st : GenState)
    (fn : String) : ConvUntouched st (loadTexture tm st fn).1 := by
  obtain ⟨h1, h2, h3, h4, h5, h6, h7, h8, h9, h10, h11⟩ := loadTexture_untouched tm st fn
  exact ⟨h2, h4, h3, h5, h1, h7, h9, h10, h11⟩

theorem convertOneStar_props (A : InitArgs) (st : GenState) (star : Star)
    (st' : GenState) (h : convertOneStar A st star = some st') :
    ConvUntouched st st' ∧ (TexInv st → TexInv st') ∧ (SetInv st → SetInv st') := by
  unfold convertOneStar at h
  split at h
  · injection h with h
    subst h
    exact ⟨⟨rfl, rfl, rfl, rfl, rfl, rfl, rfl, rfl, rfl⟩,
      fun ht => TexInv_congr rfl rfl ht, fun hs => SetInv_congr rfl rfl hs⟩
  · split at h
    · exact Option.noConfusion h
    · rename_i i hidx
      injection h with h
      subst h
      refine ⟨?_, ?_, ?_⟩
      · exact ConvUntouched_trans (loadTexture_convUntouched A.tm st _)
          ⟨rfl, rfl, rfl, rfl, rfl, rfl, rfl, rfl, rfl⟩
      · exact fun ht => TexInv_congr rfl rfl (loadTexture_texInv A.tm st _ ht)
      · exact fun hs => SetInv_congr rfl rfl (loadTexture_setInv A.tm st _ hs)

theorem convertStars_props (A : InitArgs) :
    ∀ (l : List Star) (st st' : GenState), convertStars A l st = some st' →
      ConvUntouched st st' ∧ (TexInv st → TexInv st') ∧ (SetInv st → SetInv st') := by
  intro l
  induction l with
  | nil =>
    intro st st' h
    unfold convertStars at h
    injection h with h
    subst h
    exact ⟨ConvUntouched_refl st, fun ht => ht, fun hs => hs⟩
  | cons star rest ih =>
    intro st st' h
    unfold convertStars at h
    cases h1 : convertOneStar A st star with
    | none => rw [h1] at h; exact Option.noConfusion h
    | some st1 =>
      rw [h1] at h
      obtain ⟨u1, t1, s1⟩ := convertOneStar_props A st star st1 h1
      obtain ⟨u2, t2, s2⟩ := ih st1 st' h
      exact ⟨ConvUntouched_trans u1 u2, fun ht => t2 (t1 ht), fun hs => s2 (s1 hs)⟩

theorem makeMoon_props (A : InitArgs) (st : GenState) (ty : MoonType)
    (st2 : GenState) (moon : MoonObject)
    (h : makeMoon A st ty = some (st2, moon)) :
    (ty = MoonType.First →
      moon.phasePercent = ((A.currentDay % 32 : Nat) : ℚ) / ((32 : Nat) : ℚ)) ∧
    (ty = MoonType.Second →
      moon.phasePercent = (((A.currentDay + 14) % 32 : Nat) : ℚ) / ((32 : Nat) : ℚ)) ∧
    moon.type = ty ∧
    ConvUntouched st st2 ∧ (TexInv st → TexInv st2) ∧ (SetInv st → SetInv st2) := by
  cases ty with
  | First =>
    simp only [makeMoon] at h
    split at h
    · exact Option.noConfusion h
    · rename_i fn0 hfn
      split at h
      · rename_i i hidx
        injection h with h
        rw [Prod.ext_iff] at h
        obtain ⟨h1, h2⟩ := h
        subst h1
        subst h2
        refine ⟨fun _ => rfl, fun hty => MoonType.noConfusion hty, rfl,
          ConvUntouched_refl st, fun ht => ht, fun hs => hs⟩
      · rename_i hmiss
        split at h
        · exact Option.noConfusion h
        · rename_i surface hsurf
          injection h with h
          rw [Prod.ext_iff] at h
          obtain ⟨h1, h2⟩ := h
          subst h1
          subst h2
          refine ⟨fun _ => rfl, fun hty => MoonType.noConfusion hty, rfl,
            ⟨rfl, rfl, rfl, rfl, rfl, rfl, rfl, rfl, rfl⟩,
            fun ht => ?_, fun hs => SetInv_congr rfl rfl hs⟩
          exact TexInv_congr rfl rfl
            (texAppend_inv st (toUppercase fn0) _ rfl hmiss ht)
  | Second =>
    simp only [makeMoon] at h
    split at h
    · exact Option.noConfusion h
    · rename_i fn0 hfn
      split at h
      · rename_i i hidx
        injection h with h
        rw [Prod.ext_iff] at h
        obtain ⟨h1, h2⟩ := h
        subst h1
        subst h2
        refine ⟨fun hty => MoonType.noConfusion hty, fun _ => rfl, rfl,
          ConvUntouched_refl st, fun ht => ht, fun hs => hs⟩
      · rename_i hmiss
        split at h
        · exact Option.noConfusion h
        · rename_i surface hsurf
          injection h with h
          rw [Prod.ext_iff] at h
          obtain ⟨h1, h2⟩ := h
          subst h1
          subst h2
          refine ⟨fun hty => MoonType.noConfusion hty, fun _ => rfl, rfl,
            ⟨rfl, rfl, rfl, rfl, rfl, rfl, rfl, rfl, rfl⟩,
            fun ht => ?_, fun hs => SetInv_congr rfl rfl hs⟩
          exact TexInv_congr rfl rfl
            (texAppend_inv st (toUppercase fn0) _ rfl hmiss ht)

theorem spacePhase_nonclear (A : InitArgs) (st : GenState)
    (hw : ¬A.weatherType = WeatherType.Clear) : spacePhase A st = some st := by
  unfold spacePhase
  rw [if_neg hw]

theorem spacePhase_clear_props (A : InitArgs) (st st' : GenState)
    (hw : A.weatherType = WeatherType.Clear) (h : spacePhase A st = some st') :
    st'.sky.landObjects = st.sky.landObjects ∧
    st'.sky.airObjects = st.sky.airObjects ∧
    st'.sky.animLandObjects = st.sky.animLandObjects ∧
    st'.sky.textureSets = st.sky.textureSets ∧
    st'.texSetLoads = st.texSetLoads ∧
    (∃ moon1 moon2,
      st'.sky.moonObjects = st.sky.moonObjects ++ [moon1, moon2] ∧
      moon1.phasePercent = ((A.currentDay % 32 : Nat) : ℚ) / ((32 : Nat) : ℚ) ∧
      moon2.phasePercent = (((A.currentDay + 14) % 32 : Nat) : ℚ) / ((32 : Nat) : ℚ)) ∧
    st'.sky.sunEntryIndex.isSome = true ∧
    st'.reseeds = st.reseeds ++ [0x12345679 % U32] ∧
    (∃ raw planets s2,
      genStarsLoop A.impl A.fuel A.starCount ⟨false, false, false⟩
        (0x12345679 % U32) [] = some (raw, planets, s2) ∧
      st'.stars = sortStars raw) ∧
    (TexInv st → TexInv st') ∧ (SetInv st → SetInv st') := by
  unfold spacePhase at h
  rw [if_pos hw] at h
  split at h
  · exact Option.noConfusion h
  · rename_i p1 st1 moon1 h1
    simp only [] at h
    split at h
    · exact Option.noConfusion h
    · rename_i p2 st2 moon2 h2
      split at h
      · exact Option.noConfusion h
      · rename_i p3 rawStars planets s2 h3
        split at h
        · exact Option.noConfusion h
        · rename_i st3 h4
          injection h with h
          subst h
          obtain ⟨q1a, q1b, q1c, U1, T1, S1⟩ := makeMoon_props A st MoonType.First st1 moon1 h1
          obtain ⟨q2a, q2b, q2c, U2, T2, S2⟩ := makeMoon_props A _ MoonType.Second st2 moon2 h2
          obtain ⟨U3, T3, S3⟩ := convertStars_props A _ _ st3 h4
          have U4 := loadTexture_convUntouched A.tm st3
            (toUppercase A.exeData.sunFilename)
          obtain ⟨a1, a2, a3, a4, a5, a6, a7, a8, a9⟩ := U1
          obtain ⟨b1, b2, b3, b4, b5, b6, b7, b8, b9⟩ := U2
          obtain ⟨c1, c2, c3, c4, c5, c6, c7, c8, c9⟩ := U3
          obtain ⟨d1, d2, d3, d4, d5, d6, d7, d8, d9⟩ := U4
          have m2 : st2.sky.moonObjects = st1.sky.moonObjects ++ [moon1] := b4
          have m3 : st3.sky.moonObjects = st2.sky.moonObjects ++ [moon2] := c4
          refine ⟨?_, ?_, ?_, ?_, ?_, ?_, ?_, ?_, ?_, ?_, ?_⟩
          · exact d1.trans (c1.trans (b1.trans a1))
          · exact d2.trans (c2.trans (b2.trans a2))
          · exact d3.trans (c3.trans (b3.trans a3))
          · exact d5.trans (c5.trans (b5.trans a5))
          · exact d7.trans (c7.trans (b7.trans a7))
          · refine ⟨moon1, moon2, ?_, q1a rfl, q2b rfl⟩
            have := d4.trans (m3.trans (by rw [m2, a4]))
            rw [this]
            simp
          · rfl
          · have r3 : st3.reseeds = st.reseeds ++ [0x12345679 % U32] := by
              refine c8.trans ?_
              show st2.reseeds ++ [0x12345679 % U32] = st.reseeds ++ [0x12345679 % U32]
              rw [b8, a8]
            exact d8.trans r3
          · refine ⟨rawStars, planets, s2, h3, ?_⟩
            exact d9.trans c9
          · intro ht
            refine TexInv_congr rfl rfl ?_
            refine loadTexture_texInv A.tm st3 _ ?_
            refine T3 ?_
            refine TexInv_congr rfl rfl ?_
            refine T2 ?_
            refine TexInv_congr rfl rfl ?_
            exact T1 ht
          · intro hs
            refine SetInv_congr rfl rfl ?_
            refine loadTexture_setInv A.tm st3 _ ?_
            refine S3 ?_
            refine SetInv_congr rfl rfl ?_
            refine S2 ?_
            refine SetInv_congr rfl rfl ?_
            exact S1 hs

/-! ## Lemmas about star generation -/

theorem planetGet_set_self (p : Planets) (j : Nat) (hj : j < 3) :
    planetGet (planetSet p j) j = true := by
  interval_cases j <;> rfl

theorem planetGet_set_ne (p : Planets) (j k : Nat) (hj : j < 3) (hk : k ≠ j) :
    planetGet (planetSet p j) k = planetGet p k := by
  rcases p with ⟨b0, b1, b2⟩
  interval_cases j <;> rcases k with _ | _ | _ | k <;>
    first
      | rfl
      | exact absurd rfl hk

theorem pickStarType_spec (impl : SeqSourceImpl) :
    ∀ (fuel : Nat) (planets : Planets) (s value : Nat) (planets' : Planets)
      (s' : Nat), pickStarType impl fuel planets s = some (value, planets', s') →
      value < 8 ∧
      ((value < 5 ∧ planets' = planets) ∨
        (5 ≤ value ∧ planetGet planets (value - 5) = false ∧
          planets' = planetSet planets (value - 5))) := by
  intro fuel
  induction fuel with
  | zero =>
    intro planets s value planets' s' h
    exact Option.noConfusion h
  | succ fuel ih =>
    intro planets s value planets' s' h
    unfold pickStarType at h
    simp only [] at h
    split at h
    · exact ih planets _ value planets' s' h
    · rename_i hcond
      split at h
      · rename_i h5
        injection h with h
        rw [Prod.ext_iff] at h
        obtain ⟨hv, h'⟩ := h
        rw [Prod.ext_iff] at h'
        obtain ⟨hp, hs⟩ := h'
        subst hv
        refine ⟨Nat.mod_lt _ (by norm_num), Or.inr ⟨h5, ?_, hp.symm⟩⟩
        by_contra hget
        exact hcond ⟨h5, by
          cases hg : planetGet planets ((rnext impl s).1 % 8 - 5)
          · exact absurd hg hget
          · rfl⟩
      · rename_i h5
        injection h with h
        rw [Prod.ext_iff] at h
        obtain ⟨hv, h'⟩ := h
        rw [Prod.ext_iff] at h'
        obtain ⟨hp, hs⟩ := h'
        subst hv
        exact ⟨Nat.mod_lt _ (by norm_num),
          Or.inl ⟨Nat.lt_of_not_le h5, hp.symm⟩⟩

theorem genStarsLoop_inv (impl : SeqSourceImpl) (fuel : Nat) :
    ∀ (i : Nat) (planets : Planets) (s : Nat) (acc l : List Star)
      (planets' : Planets) (s' : Nat),
      genStarsLoop impl fuel i planets s acc = some (l, planets', s') →
      (∀ k, k < 3 → planetGet planets k = false →
        ∀ st ∈ acc, st.type ≠ 5 + (k : Int)) →
      PlanetsUniqueIn acc →
      (∀ st ∈ acc, -1 ≤ st.type ∧ st.type < 8) →
      PlanetsUniqueIn l ∧ (∀ st ∈ l, -1 ≤ st.type ∧ st.type < 8) ∧
      l.length = acc.length + i := by
  intro i
  induction i with
  | zero =>
    intro planets s acc l planets' s' h hmark huniq htypes
    unfold genStarsLoop at h
    injection h with h
    have h1 : acc = l := congrArg Prod.fst h
    subst h1
    exact ⟨huniq, htypes, by omega⟩
  | succ i ih =>
    intro planets s acc l planets' s' h hmark huniq htypes
    unfold genStarsLoop at h
    simp only [] at h
    split at h
    · rename_i hsel
      obtain ⟨r1, r2, r3⟩ := ih _ _ _ _ _ _ h
        (by
          intro k hk hfalse st hst
          rcases List.mem_append.mp hst with hst | hst
          · exact hmark k hk hfalse st hst
          · simp at hst
            subst hst
            show ¬((-1 : Int) = 5 + (k : Int))
            intro hEq
            omega)
        (by
          unfold PlanetsUniqueIn at huniq ⊢
          rw [List.pairwise_append]
          refine ⟨huniq, by simp, ?_⟩
          intro a ha b hb
          simp at hb
          subst hb
          rintro ⟨h5, heq⟩
          simp at heq
          omega)
        (by
          intro st hst
          rcases List.mem_append.mp hst with hst | hst
          · exact htypes st hst
          · simp at hst
            subst hst
            exact ⟨by norm_num, by norm_num⟩)
      refine ⟨r1, r2, ?_⟩
      rw [List.length_append] at r3
      simp at r3
      omega
    · rename_i hsel
      split at h
      · exact Option.noConfusion h
      · rename_i value planets2 s3 hpick
        obtain ⟨hv8, hcase⟩ := pickStarType_spec impl fuel planets _ value planets2 s3 hpick
        obtain ⟨r1, r2, r3⟩ := ih _ _ _ _ _ _ h
          (by
            intro k hk hfalse st hst
            rcases hcase with ⟨hlt5, hpeq⟩ | ⟨h5, hgetF, hpeq⟩
            · subst hpeq
              rcases List.mem_append.mp hst with hst | hst
              · exact hmark k hk hfalse st hst
              · simp at hst
                subst hst
                show ¬((value : Int) = 5 + (k : Int))
                intro hEq
                omega
            · subst hpeq
              have hkne : k ≠ value - 5 := by
                intro he
                subst he
                rw [planetGet_set_self planets (value - 5) (by omega)] at hfalse
                exact Bool.noConfusion hfalse
              have hfalse' : planetGet planets k = false := by
                rw [← planetGet_set_ne planets (value - 5) k (by omega) hkne]
                exact hfalse
              rcases List.mem_append.mp hst with hst | hst
              · exact hmark k hk hfalse' st hst
              · simp at hst
                subst hst
                show ¬((value : Int) = 5 + (k : Int))
                intro hEq
                omega)
          (by
            unfold PlanetsUniqueIn at huniq ⊢
            rw [List.pairwise_append]
            refine ⟨huniq, by simp, ?_⟩
            intro a ha b hb
            simp at hb
            subst hb
            rintro ⟨ha5, haeq⟩
            simp at haeq
            rcases hcase with ⟨hlt5, _⟩ | ⟨h5, hgetF, _⟩
            · omega
            · have := hmark (value - 5) (by omega) hgetF a ha
              omega)
          (by
            intro st hst
            rcases List.mem_append.mp hst with hst | hst
            · exact htypes st hst
            · simp at hst
              subst hst
              constructor
              · show (-1 : Int) ≤ (value : Int)
                omega
              · show (value : Int) < 8
                omega)
        refine ⟨r1, r2, ?_⟩
        rw [List.length_append] at r3
        simp at r3
        omega

/-! ## Lemmas about the star sort -/

theorem sortStars_perm (l : List Star) : (sortStars l).Perm l :=
  List.perm_insertionSort _ l

theorem sortStars_sorted (l : List Star) :
    List.Sorted (fun a b : Star => a.type ≤ b.type) (sortStars l) := by
  haveI h1 : IsTotal Star (fun a b : Star => a.type ≤ b.type) :=
    ⟨fun a b => le_total a.type b.type⟩
  haveI h2 : IsTrans Star (fun a b : Star => a.type ≤ b.type) :=
    ⟨fun a b c hab hbc => le_trans hab hbc⟩
  exact List.sorted_insertionSort _ l

theorem PlanetsUniqueIn_perm {l l' : List Star} (hp : l.Perm l')
    (h : PlanetsUniqueIn l) : PlanetsUniqueIn l' := by
  unfold PlanetsUniqueIn at h ⊢
  refine (List.Perm.pairwise_iff ?_ hp).mp h
  intro x y hxy
  rintro ⟨h5, heq⟩
  exact hxy ⟨heq ▸ h5, heq.symm⟩

theorem sorted_precede {l : List Star}
    (hs : List.Sorted (fun a b : Star => a.type ≤ b.type) l)
    (ht : ∀ st ∈ l, -1 ≤ st.type) :
    List.Pairwise (fun a b : Star => b.type = -1 → a.type = -1) l := by
  refine List.Pairwise.imp_of_mem ?_ hs
  intro a b ha hb hab hbneg
  have := ht a ha
  omega

theorem sortStars_planets {l : List Star} (h : PlanetsUniqueIn l) :
    PlanetsUniqueIn (sortStars l) :=
  PlanetsUniqueIn_perm (sortStars_perm l).symm h

/-! ## Init-level lemmas -/

theorem initState_decomp (A : InitArgs) (st' : GenState)
    (h : initState A = some st') :
    ∃ s1 s2 s3, mountainPhase A = some s1 ∧ cloudPhase A s1 = some s2 ∧
      animPhase A s2 = some s3 ∧ spacePhase A s3 = some st' := by
  unfold initState at h
  obtain ⟨s3, h3, h4⟩ := Option.bind_eq_some.mp h
  obtain ⟨s2, h2, h3'⟩ := Option.bind_eq_some.mp h3
  obtain ⟨s1, h1, h2'⟩ := Option.bind_eq_some.mp h2
  exact ⟨s1, s2, s3, h1, h2', h3', h4⟩

theorem arenaAngle_range (u : Nat) (hu : u < 512) :
    -(Real.pi / 2) < arenaAngleToRadians u ∧
    arenaAngleToRadians u ≤ 3 * Real.pi / 2 := by
  unfold arenaAngleToRadians UNIQUE_ANGLES
  have hpi := Real.pi_pos
  have hcast : (u : ℝ) ≤ 511 := by exact_mod_cast Nat.le_of_lt_succ hu
  have hnn : (0 : ℝ) ≤ (u : ℝ) := Nat.cast_nonneg u
  constructor
  · have h1 : (2 * Real.pi) * ((u : ℝ) / 512) ≤ 2 * Real.pi * (511 / 512) := by
      apply mul_le_mul_of_nonneg_left _ (by positivity)
      apply div_le_div_of_nonneg_right hcast (by norm_num)
    nlinarith
  · have h1 : 0 ≤ (2 * Real.pi) * ((u : ℝ) / 512) := by positivity
    nlinarith

theorem initState_angles (A : InitArgs) (st' : GenState)
    (h : initState A = some st') : anglesWellFormed st'.sky := by
  obtain ⟨s1, s2, s3, h1, h2, h3, h4⟩ := initState_decomp A st' h
  obtain ⟨_, _, _, _, _, _, _, _, _, _, _, _, mL, mA⟩ := mountainPhase_props A s1 h1
  have hang2 : (∀ o ∈ s2.sky.landObjects, AngleOK o.angleRadians) ∧
      (∀ o ∈ s2.sky.airObjects, AngleOK o.angleRadians) := by
    by_cases hw : A.weatherType = WeatherType.Clear
    · obtain ⟨_, _, _, _, _, _, _, _, _, _, _, _, hangimp⟩ :=
        cloudPhase_props A s1 s2 hw h2
      exact hangimp mL mA
    · rw [cloudPhase_nonclear A s1 hw] at h2
      injection h2 with h2
      subst h2
      exact ⟨mL, mA⟩
  obtain ⟨aL, aA, _⟩ := animPhase_props A s2 s3 h3
  have hang3 : (∀ o ∈ s3.sky.landObjects, AngleOK o.angleRadians) ∧
      (∀ o ∈ s3.sky.airObjects, AngleOK o.angleRadians) :=
    ⟨by rw [aL]; exact hang2.1, by rw [aA]; exact hang2.2⟩
  have hang4 : (∀ o ∈ st'.sky.landObjects, AngleOK o.angleRadians) ∧
      (∀ o ∈ st'.sky.airObjects, AngleOK o.angleRadians) := by
    by_cases hw : A.weatherType = WeatherType.Clear
    · obtain ⟨sL, sA, _⟩ := spacePhase_clear_props A s3 st' hw h4
      exact ⟨by rw [sL]; exact hang3.1, by rw [sA]; exact hang3.2⟩
    · rw [spacePhase_nonclear A s3 hw] at h4
      injection h4 with h4
      subst h4
      exact hang3
  constructor
  · intro o ho
    obtain ⟨u, hu, he⟩ := hang4.1 o ho
    refine ⟨⟨u, hu, he⟩, ?_, ?_⟩
    · rw [he]; exact (arenaAngle_range u hu).1
    · rw [he]; exact (arenaAngle_range u hu).2
  · intro o ho
    obtain ⟨u, hu, he⟩ := hang4.2 o ho
    refine ⟨⟨u, hu, he⟩, ?_, ?_⟩
    · rw [he]; exact (arenaAngle_range u hu).1
    · rw [he]; exact (arenaAngle_range u hu).2

theorem initState_counts (A : InitArgs) (st' : GenState)
    (hw : A.weatherType = WeatherType.Clear) (h : initState A = some st') :
    st'.sky.landObjects.length =
      (rnext A.impl (A.locationDef.cityDef.distantSkySeed % U32)).1 % 4 + 2 ∧
    st'.sky.airObjects.length = 7 ∧
    st'.sky.moonObjects.map MoonObject.phasePercent =
      [((A.currentDay % 32 : Nat) : ℚ) / ((32 : Nat) : ℚ),
       (((A.currentDay + 14) % 32 : Nat) : ℚ) / ((32 : Nat) : ℚ)] ∧
    st'.sky.sunEntryIndex.isSome = true ∧
    st'.stars.length = A.starCount := by
  obtain ⟨s1, s2, s3, h1, h2, h3, h4⟩ := initState_decomp A st' h
  obtain ⟨mLen, mAir, _, _, mMoons, _, _, _, _, _, _, _, _, _⟩ :=
    mountainPhase_props A s1 h1
  obtain ⟨cAir, cLand, _, _, cMoons, _, _, _, _, _, _, _, _⟩ :=
    cloudPhase_props A s1 s2 hw h2
  obtain ⟨aL, aA, aM, _, _, _, _, _, _, _, _, _, _⟩ := animPhase_props A s2 s3 h3
  obtain ⟨sL, sA, _, _, _, hmoons, sSun, _, hstars0, _, _⟩ :=
    spacePhase_clear_props A s3 st' hw h4
  obtain ⟨moon1, moon2, sM, sp1, sp2⟩ := hmoons
  obtain ⟨raw, planets, s2r, hgen, hstars⟩ := hstars0
  refine ⟨?_, ?_, ?_, sSun, ?_⟩
  · rw [sL, aL, cLand]
    exact mLen
  · rw [sA, aA, cAir, mAir]
    rfl
  · rw [sM, aM, cMoons, mMoons]
    simp [sp1, sp2]
  · obtain ⟨_, _, hlen⟩ := genStarsLoop_inv A.impl A.fuel A.starCount
      ⟨false, false, false⟩ (0x12345679 % U32) [] raw planets s2r hgen
      (by intro k hk hfalse st hst; simp at hst)
      (by unfold PlanetsUniqueIn; exact List.Pairwise.nil)
      (by intro st hst; simp at hst)
    rw [hstars, (sortStars_perm raw).length_eq, hlen]
    simp

theorem initState_reseeds (A : InitArgs) (st' : GenState)
    (h : initState A = some st') : reseedsOK A st' := by
  obtain ⟨s1, s2, s3, h1, h2, h3, h4⟩ := initState_decomp A st' h
  obtain ⟨_, mAir, _, _, _, _, _, _, mRes, _, _, _, _, _⟩ :=
    mountainPhase_props A s1 h1
  obtain ⟨_, aAir, _, _, _, _, _, _, aRes, _, _, _, _⟩ := animPhase_props A s2 s3 h3
  constructor
  · intro hw
    obtain ⟨_, _, _, _, _, _, _, _, cRes, _, _, _, _⟩ :=
      cloudPhase_props A s1 s2 hw h2
    obtain ⟨_, _, _, _, _, _, _, sRes, _, _, _⟩ := spacePhase_clear_props A s3 st' hw h4
    refine ⟨s1, h1, ?_⟩
    rw [sRes, aRes, cRes, mRes]
    rfl
  · intro hw
    have h2' : s1 = s2 := by
      rw [cloudPhase_nonclear A s1 hw] at h2
      injection h2
    have h4' : s3 = st' := by
      rw [spacePhase_nonclear A s3 hw] at h4
      injection h4
    constructor
    · rw [← h4', aAir, ← h2', mAir]
    · rw [← h4', aRes, ← h2', mRes]

theorem initState_logs (A : InitArgs) (st' : GenState)
    (h : initState A = some st') : TexInv st' ∧ SetInv st' := by
  obtain ⟨s1, s2, s3, h1, h2, h3, h4⟩ := initState_decomp A st' h
  obtain ⟨_, _, _, _, _, _, _, _, _, _, mT, mS, _, _⟩ := mountainPhase_props A s1 h1
  have hc : TexInv s2 ∧ SetInv s2 := by
    by_cases hw : A.weatherType = WeatherType.Clear
    · obtain ⟨_, _, _, _, _, _, _, _, _, _, cT, cS, _⟩ :=
        cloudPhase_props A s1 s2 hw h2
      exact ⟨cT mT, cS mS⟩
    · rw [cloudPhase_nonclear A s1 hw] at h2
      injection h2 with h2
      subst h2
      exact ⟨mT, mS⟩
  obtain ⟨_, _, _, _, _, aTex, aLoad, _, _, _, aS, _, _⟩ := animPhase_props A s2 s3 h3
  have ha : TexInv s3 ∧ SetInv s3 := ⟨TexInv_congr aLoad aTex hc.1, aS hc.2⟩
  by_cases hw : A.weatherType = WeatherType.Clear
  · obtain ⟨_, _, _, _, _, _, _, _, _, sT, sS⟩ := spacePhase_clear_props A s3 st' hw h4
    exact ⟨sT ha.1, sS ha.2⟩
  · rw [spacePhase_nonclear A s3 hw] at h4
    injection h4 with h4
    subst h4
    exact ha

theorem initState_stars (A : InitArgs) (st' : GenState)
    (h : initState A = some st') :
    PlanetsUniqueIn st'.stars ∧
    List.Sorted (fun a b : Star => a.type ≤ b.type) st'.stars ∧
    List.Pairwise (fun a b : Star => b.type = -1 → a.type = -1) st'.stars ∧
    (∀ st ∈ st'.stars, -1 ≤ st.type ∧ st.type < 8) := by
  obtain ⟨s1, s2, s3, h1, h2, h3, h4⟩ := initState_decomp A st' h
  obtain ⟨_, _, _, _, _, _, _, _, _, mStars, _, _, _, _⟩ :=
    mountainPhase_props A s1 h1
  obtain ⟨_, _, _, _, _, _, _, _, _, aStars, _, _, _⟩ := animPhase_props A s2 s3 h3
  by_cases hw : A.weatherType = WeatherType.Clear
  · obtain ⟨_, _, _, _, _, _, _, _, hstars0, _, _⟩ :=
      spacePhase_clear_props A s3 st' hw h4
    obtain ⟨raw, planets, s2r, hgen, hstars⟩ := hstars0
    obtain ⟨huniq, htypes, _⟩ := genStarsLoop_inv A.impl A.fuel A.starCount
      ⟨false, false, false⟩ (0x12345679 % U32) [] raw planets s2r hgen
      (by intro k hk hfalse st hst; simp at hst)
      (by unfold PlanetsUniqueIn; exact List.Pairwise.nil)
      (by intro st hst; simp at hst)
    have htypes' : ∀ st ∈ st'.stars, -1 ≤ st.type ∧ st.type < 8 := by
      intro st hst
      rw [hstars] at hst
      exact htypes st ((sortStars_perm raw).mem_iff.mp hst)
    refine ⟨?_, ?_, ?_, htypes'⟩
    · rw [hstars]
      exact sortStars_planets huniq
    · rw [hstars]
      exact sortStars_sorted raw
    · rw [hstars]
      refine sorted_precede (sortStars_sorted raw) ?_
      intro st hst
      exact (htypes st ((sortStars_perm raw).mem_iff.mp hst)).1
  · have h4' : s3 = st' := by
      rw [spacePhase_nonclear A s3 hw] at h4
      injection h4
    have h2' : s1 = s2 := by
      rw [cloudPhase_nonclear A s1 hw] at h2
      injection h2
    have hempty : st'.stars = [] := by
      rw [← h4', aStars, ← h2']
      exact mStars
    rw [hempty]
    exact ⟨List.Pairwise.nil, List.Pairwise.nil, List.Pairwise.nil,
      by intro st hst; simp at hst⟩

theorem initState_skyGood (A : InitArgs) (st' : GenState)
    (hd : 0 < A.defaultFrameTime) (h : initState A = some st') :
    SkyGood st'.sky := by
  obtain ⟨s1, s2, s3, h1, h2, h3, h4⟩ := initState_decomp A st' h
  obtain ⟨_, _, mSets, mAnim, _, _, _, _, _, _, _, _, _, _⟩ :=
    mountainPhase_props A s1 h1
  have hcAnim : s2.sky.animLandObjects = [] := by
    by_cases hw : A.weatherType = WeatherType.Clear
    · obtain ⟨_, _, _, cAnim, _, _, _, _, _, _, _, _, _⟩ :=
        cloudPhase_props A s1 s2 hw h2
      rw [cAnim, mAnim]
    · rw [cloudPhase_nonclear A s1 hw] at h2
      injection h2 with h2
      subst h2
      exact mAnim
  obtain ⟨_, _, _, _, _, _, _, _, _, _, _, _, aMem⟩ := animPhase_props A s2 s3 h3
  have hs3 : ∀ o ∈ s3.sky.animLandObjects,
      0 < o.targetFrameTime ∧ o.currentFrameTime < o.targetFrameTime ∧
      o.setEntryIndex < s3.sky.textureSets.length := by
    intro o ho
    rcases aMem o ho with hmem | hnew
    · rw [hcAnim] at hmem
      exact absurd hmem (List.not_mem_nil o)
    · obtain ⟨ht, hcu, hidx⟩ := hnew
      rw [ht, hcu]
      exact ⟨hd, hd, hidx⟩
  by_cases hw : A.weatherType = WeatherType.Clear
  · obtain ⟨_, _, sAnim, sSets, _, _, _, _, _, _, _⟩ :=
      spacePhase_clear_props A s3 st' hw h4
    intro o ho
    rw [sAnim] at ho
    obtain ⟨g1, g2, g3⟩ := hs3 o ho
    rw [sSets]
    exact ⟨g1, g2, g3⟩
  · rw [spacePhase_nonclear A s3 hw] at h4
    injection h4 with h4
    subst h4
    exact hs3

theorem reachable_good (A : InitArgs) (sky : DistantSky)
    (hd : 0 < A.defaultFrameTime) (hr : Reachable A sky) : SkyGood sky := by
  induction hr with
  | base hinit =>
    unfold init at hinit
    obtain ⟨st', hst, hsky⟩ := Option.map_eq_some'.mp hinit
    rw [← hsky]
    exact initState_skyGood A st' hd hst
  | step dt hr htick ih =>
    exact tick_preserves_good dt _ _ htick ih

/-! ## Claim theorems -/

/-- C1: for every fixed input tuple, two independent runs of `init` produce
identical object collections — the same land/air/animated-land/moon/star
counts, the same texture indices, the same `angleRadians` values, and the
same star directions; nothing besides the inputs influences the result. -/
theorem C1_init_deterministic (a b : InitArgs) (h : a = b) :
    init a = init b ∧
    (init a).map (fun s => s.landObjects.length) =
      (init b).map (fun s => s.landObjects.length) ∧
    (init a).map (fun s => s.airObjects.length) =
      (init b).map (fun s => s.airObjects.length) ∧
    (init a).map (fun s => s.animLandObjects.length) =
      (init b).map (fun s => s.animLandObjects.length) ∧
    (init a).map (fun s => s.moonObjects.length) =
      (init b).map (fun s => s.moonObjects.length) ∧
    (init a).map (fun s => s.starObjects.length) =
      (init b).map (fun s => s.starObjects.length) ∧
    (init a).map (fun s => s.landObjects.map LandObject.entryIndex) =
      (init b).map (fun s => s.landObjects.map LandObject.entryIndex) ∧
    (init a).map (fun s => s.landObjects.map LandObject.angleRadians) =
      (init b).map (fun s => s.landObjects.map LandObject.angleRadians) ∧
    (init a).map (fun s => s.airObjects.map AirObject.angleRadians) =
      (init b).map (fun s => s.airObjects.map AirObject.angleRadians) ∧
    (init a).map (fun s => s.starObjects.map starObjDirection) =
      (init b).map (fun s => s.starObjects.map starObjDirection) := by
  subst h
  exact ⟨rfl, rfl, rfl, rfl, rfl, rfl, rfl, rfl, rfl, rfl⟩

/-- Witness for C1 at the concrete input set. -/
theorem C1_witness :
    init argsC = init argsC ∧
    (init argsC).map (fun s => s.landObjects.length) =
      (init argsC).map (fun s => s.landObjects.length) ∧
    (init argsC).map (fun s => s.airObjects.length) =
      (init argsC).map (fun s => s.airObjects.length) ∧
    (init argsC).map (fun s => s.animLandObjects.length) =
      (init argsC).map (fun s => s.animLandObjects.length) ∧
    (init argsC).map (fun s => s.moonObjects.length) =
      (init argsC).map (fun s => s.moonObjects.length) ∧
    (init argsC).map (fun s => s.starObjects.length) =
      (init argsC).map (fun s => s.starObjects.length) ∧
    (init argsC).map (fun s => s.landObjects.map LandObject.entryIndex) =
      (init argsC).map (fun s => s.landObjects.map LandObject.entryIndex) ∧
    (init argsC).map (fun s => s.landObjects.map LandObject.angleRadians) =
      (init argsC).map (fun s => s.landObjects.map LandObject.angleRadians) ∧
    (init argsC).map (fun s => s.airObjects.map AirObject.angleRadians) =
      (init argsC).map (fun s => s.airObjects.map AirObject.angleRadians) ∧
    (init argsC).map (fun s => s.starObjects.map starObjDirection) =
      (init argsC).map (fun s => s.starObjects.map starObjDirection) :=
  C1_init_deterministic argsC argsC rfl

/-- C2 counterexample: the conversion applies no normalization, so the angle
unit 400 (legal, being below 512) produces a negative angle, outside
`[0, 2π)`. -/
theorem C2_counterexample : arenaAngleToRadians 400 < 0 := by
  unfold arenaAngleToRadians UNIQUE_ANGLES
  have hpi := Real.pi_pos
  norm_num
  nlinarith

/-- C2 (amended): every `angleRadians` stored in a `LandObject` or
`AirObject` by `init` is produced from an angle unit `u < 512` via the fixed
conversion, and the resulting value lies in `(-π/2, 3π/2]` (not `[0, 2π)`:
the code does not normalize). -/
theorem C2_angles (A : InitArgs) (st : GenState) (h : initState A = some st) :
    stateAnglesOK st :=
  initState_angles A st h

/-- Witness for C2 at the concrete input set. -/
theorem C2_witness :
    (initState argsC).isSome = true ∧ (initState argsC).elim False stateAnglesOK := by
  constructor
  · rfl
  · cases hI : initState argsC with
    | none =>
      have hs : (initState argsC).isSome = true := rfl
      rw [hI] at hs
      simp at hs
    | some st => exact C2_angles argsC st hI

/-- C3 counterexample: the `std::sort` contract only promises a sorted
permutation; for two distinct stars of equal type, the swapped output is a
valid sort result that does not keep the original generation order, so the
stable tie-break is not guaranteed by the code. -/
theorem C3_counterexample :
    IsStdSortResult [starA, starB] [starB, starA] ∧
    ([starB, starA] : List Star) ≠ [starA, starB] := by
  refine ⟨⟨List.Perm.swap starB starA [], ?_⟩, ?_⟩
  · decide
  · decide

/-- C3 (amended): after star generation the intermediate star list is sorted
ascending by type, so every constellation star (type `-1`) precedes every
large star; the relative order of equal-type stars is not guaranteed
(`std::sort` is not stable). -/
theorem C3_sorted (A : InitArgs) (st : GenState) (h : initState A = some st) :
    starsSortedOK st := by
  obtain ⟨_, hsorted, hprec, _⟩ := initState_stars A st h
  exact ⟨hsorted, hprec⟩

/-- Witness for C3 at the concrete input set. -/
theorem C3_witness :
    (initState argsC).isSome = true ∧ (initState argsC).elim False starsSortedOK := by
  constructor
  · rfl
  · cases hI : initState argsC with
    | none =>
      have hs : (initState argsC).isSome = true := rfl
      rw [hI] at hs
      simp at hs
    | some st => exact C3_sorted argsC st hI

/-- C4 counterexample: under the claim's premises (Temperate city, clear
weather, day 0, star count 40) the generator places exactly 7 cloud (air)
objects, not between 0 and 6. -/
theorem C4_counterexample :
    ((initState argsC).map (fun st => st.sky.airObjects.length)) = some 7 ∧
    ¬(7 ≤ 6) := by
  exact ⟨rfl, by norm_num⟩

/-- C4 (amended): for a Temperate-climate city in clear weather with day 0
and star count 40, `init` produces `2 + (first draw % 4)` mountain objects
(hence between 2 and 5), exactly 7 cloud objects (not 0–6), exactly two
moons with phase percents 0 and 14/32, a present sun entry, and a generated
star list of length 40. -/
theorem C4_scenario (A : InitArgs) (st : GenState)
    (hclimate : A.locationDef.cityDef.climateType = ClimateType.Temperate)
    (hw : A.weatherType = WeatherType.Clear)
    (hday : A.currentDay = 0) (hstar : A.starCount = 40)
    (h : initState A = some st) : scenarioOK A st := by
  obtain ⟨c1, c2, c3, c4, c5⟩ := initState_counts A st hw h
  refine ⟨by omega, by omega, by omega, c2, ?_, c4, c5⟩
  rw [hday] at c3
  rw [c3]
  norm_num

/-- Witness for C4 at the concrete input set. -/
theorem C4_witness :
    (initState argsC).isSome = true ∧
    (initState argsC).elim False (scenarioOK argsC) := by
  constructor
  · rfl
  · cases hI : initState argsC with
    | none =>
      have hs : (initState argsC).isSome = true := rfl
      rw [hI] at hs
      simp at hs
    | some st => exact C4_scenario argsC st rfl rfl rfl rfl hI

/-- C5 counterexample: with original seed 10 and day 0, the claim as stated
predicts a cloud reseed value of 10, but the run reseeds with 15 — the
sequence source's current seed after the five mountain draws plus
`day % 32`, not the original seed. -/
theorem C5_counterexample :
    ((initState argsC).map GenState.reseeds) = some [15, 0x12345679] ∧
    (10 + 0 % 32) % U32 = 10 ∧ (15 : Nat) ≠ 10 := by
  refine ⟨rfl, by norm_num [U32], by norm_num⟩

/-- C5 (amended): cloud placement happens only under clear weather, and the
cloud reseed uses the sequence source's current seed after the mountain
draws — `getSeed() + (dayCount % 32)` with 32-bit wrap — not the seed `init`
started with. -/
theorem C5_reseeds (A : InitArgs) (st : GenState) (h : initState A = some st) :
    reseedsOK A st :=
  initState_reseeds A st h

/-- Witness for C5 at the concrete input set. -/
theorem C5_witness :
    (initState argsC).isSome = true ∧
    (initState argsC).elim False (reseedsOK argsC) := by
  constructor
  · rfl
  · cases hI : initState argsC with
    | none =>
      have hs : (initState argsC).isSome = true := rfl
      rw [hI] at hs
      simp at hs
    | some st => exact C5_reseeds argsC st hI

/-- C6: within one generation run the loader is invoked at most once per
identifier in each store (the ghost loader logs have no duplicates), no two
distinct identifiers share an index (store identifiers are duplicate-free),
repeated requests for one identifier return the same index without invoking
the loader again, and the stores are append-only. -/
theorem C6_store (A : InitArgs) (st : GenState) (h : initState A = some st) :
    logsOK st ∧ getOrCreateIdempotent ∧ getOrCreateInjective ∧ storeAppendOnly := by
  obtain ⟨⟨t1, t2, _⟩, ⟨s1, s2, _⟩⟩ := initState_logs A st h
  exact ⟨⟨t1, t2, s1, s2⟩, getOrCreate_idem, getOrCreate_inj, getOrCreate_append_only⟩

/-- Witness for C6 at the concrete input set. -/
theorem C6_witness :
    (initState argsC).isSome = true ∧
    ((initState argsC).elim False logsOK ∧ getOrCreateIdempotent ∧
      getOrCreateInjective ∧ storeAppendOnly) := by
  refine ⟨rfl, ?_⟩
  cases hI : initState argsC with
  | none =>
    have hs : (initState argsC).isSome = true := rfl
    rw [hI] at hs
    simp at hs
  | some st =>
    obtain ⟨hl, h2, h3, h4⟩ := C6_store argsC st hI
    exact ⟨hl, h2, h3, h4⟩

/-- C7: in any starfield generated by `init`, no two large stars carry the
same type value in the planet range `[5, 8)`. -/
theorem C7_planets (A : InitArgs) (st : GenState) (h : initState A = some st) :
    starsPlanetsUnique st :=
  (initState_stars A st h).1

/-- Witness for C7 at the concrete input set. -/
theorem C7_witness :
    (initState argsC).isSome = true ∧
    (initState argsC).elim False starsPlanetsUnique := by
  constructor
  · rfl
  · cases hI : initState argsC with
    | none =>
      have hs : (initState argsC).isSome = true := rfl
      rw [hI] at hs
      simp at hs
    | some st => exact C7_planets argsC st hI

/-- C8: for an `AnimatedLandObject` with target frame time 1, frame index 0
and timer 0 over a 3-frame set, one `update(2.5)` call leaves the timer at
0.5 and the index at 2; in general `update` accumulates `dt` and subtracts
the target while advancing cyclically, and is a no-op on a zero-frame set. -/
theorem C8_update (sky : DistantSky) (obj : AnimatedLandObject)
    (hn : getTextureSetCount sky obj.setEntryIndex = some 3)
    (ht : obj.targetFrameTime = 1) (hc : obj.currentFrameTime = 0)
    (hi : obj.index = 0) :
    update (5/2) sky obj = some { obj with currentFrameTime := 1/2, index := 2 } ∧
    updateGeneralSpec ∧ updateZeroFramesNoop := by
  refine ⟨?_, update_spec_general, update_spec_zero_frames⟩
  have hgen := update_spec_general (5/2) sky obj 3 hn (by norm_num)
    (by rw [hi]; norm_num) (by rw [ht]; norm_num)
  rw [hgen, ht, hc, hi]
  have hit : updateIters 1 ((0 : ℚ) + 5/2) = 2 := by
    rw [updateIters_eq_floor 1 (by norm_num)]
    have : ((0 : ℚ) + 5/2) / 1 = 5/2 := by norm_num
    rw [this]
    have h2 : ⌊(5/2 : ℚ)⌋ = 2 := by
      rw [Int.floor_eq_iff]
      constructor <;> norm_num
    rw [h2]
    rfl
  rw [hit]
  norm_num

/-- Witness for C8 at a concrete aggregate and object. -/
theorem C8_witness :
    update (5/2) skyW objW = some { objW with currentFrameTime := 1/2, index := 2 } ∧
    updateGeneralSpec ∧ updateZeroFramesNoop :=
  C8_update skyW objW rfl rfl rfl rfl

/-- C9: from any reachable state of the aggregate, any number of `tick 0`
calls leaves the aggregate — in particular every animated land object's
frame index — unchanged. -/
theorem C9_tick_zero (A : InitArgs) (sky : DistantSky)
    (hd : 0 < A.defaultFrameTime) (hr : Reachable A sky) : tickZeroFixed sky :=
  tickN_fixed_of_good sky (reachable_good A sky hd hr)

/-- Witness for C9 at the concrete input set. -/
theorem C9_witness :
    (init argsC).isSome = true ∧ (init argsC).elim False tickZeroFixed := by
  constructor
  · rfl
  · cases hI : init argsC with
    | none =>
      have hs : (init argsC).isSome = true := rfl
      rw [hI] at hs
      simp at hs
    | some sky =>
      exact C9_tick_zero argsC sky (by show (0 : ℚ) < 1; norm_num) (Reachable.base hI)

/-- C10: with a positive target frame time, a nonnegative timer, `dt ≥ 0`
and at least one frame, `update` terminates — its loop runs exactly
`⌊(timer + dt) / target⌋` iterations — and leaves the timer in
`[0, target)`. -/
theorem C10_update_terminates (dt : ℚ) (sky : DistantSky)
    (obj : AnimatedLandObject) (n : Nat)
    (ht : 0 < obj.targetFrameTime) (hc : 0 ≤ obj.currentFrameTime)
    (hdt : 0 ≤ dt) (hn : getTextureSetCount sky obj.setEntryIndex = some n)
    (h0 : 0 < n) :
    updateResultInRange obj.targetFrameTime (update dt sky obj) ∧
    updateIters obj.targetFrameTime (obj.currentFrameTime + dt) =
      (⌊(obj.currentFrameTime + dt) / obj.targetFrameTime⌋).toNat := by
  constructor
  · rw [update_eq_of_pos dt sky obj n hn h0]
    show 0 ≤ (updateLoop obj.targetFrameTime (obj.currentFrameTime + dt)
        obj.index n).1 ∧
      (updateLoop obj.targetFrameTime (obj.currentFrameTime + dt) obj.index n).1 <
        obj.targetFrameTime
    exact ⟨updateLoop_fst_nonneg _ _ _ _ (add_nonneg hc hdt),
      updateLoop_fst_lt _ ht _ _ _⟩
  · exact updateIters_eq_floor obj.targetFrameTime ht _

/-- Witness for C10 at a concrete aggregate and object. -/
theorem C10_witness :
    updateResultInRange objW.targetFrameTime (update (5/2) skyW objW) ∧
    updateIters objW.targetFrameTime (objW.currentFrameTime + 5/2) =
      (⌊(objW.currentFrameTime + 5/2) / objW.targetFrameTime⌋).toNat :=
  C10_update_terminates (5/2) skyW objW 3
    (by exact (by norm_num : (0 : ℚ) < 1)) (le_refl 0) (by norm_num) rfl
    (by norm_num)

end DistantSkyModel
